import Mathlib

/-!
Verification of the display-management core of the repository.

Part 1 embeds vncviewer/display.cpp (the display catalog of the viewer):
checkmonitors and getSelectedScreen, over an explicit model of the OS
display-enumeration environment.

Part 2 models the server-side VirtualDisplay controller.  Its
implementation file is not part of the repository snapshot (only
winvnc/VirtualDisplay.h with the declarations of attachDisplay,
disconnectDisplay, the VIRTUALDISPLAY record, the SUPPORTEDMONITORS
shared block and the naming helpers is present), so those operations are
modelled from the specification and marked as such.
-/

namespace DisplayCatalog

/-- One display adapter as reported by the OS enumeration
(EnumDisplayDevices / EnumDisplaySettingsEx / MonitorFromPoint /
GetMonitorInfo).  The fields collect exactly the data display.cpp reads:
the state flags, the DEVMODE geometry, the monitor handle obtained from
MonitorFromPoint at the DEVMODE position (none models a NULL handle),
and the work rectangle of that monitor.  The monitor DeviceString
computed in the source (lines 48-69) is a description label that is
never stored in the catalog, so it is not modelled. -/
structure Adapter where
  mirroring : Bool
  attached : Bool
  primary : Bool
  deviceName : String
  width : Int
  height : Int
  depth : Int
  freq : Int
  posx : Int
  posy : Int
  hm : Option Nat
  workl : Int
  workt : Int
  workr : Int
  workb : Int
deriving DecidableEq

/-- One slot of the monarray catalog of tempdisplayclass.  The
buttontext field of the source is a formatted presentation string
derived from the numeric fields below and is omitted. -/
structure MonEntry where
  wl : Int
  wt : Int
  wr : Int
  wb : Int
  hm : Option Nat
  width : Int
  height : Int
  depth : Int
  freq : Int
  offsetx : Int
  offsety : Int
  devicename : String
deriving DecidableEq

/-- The OS environment read by checkmonitors: the adapter enumeration,
the virtual-screen metrics (GetSystemMetrics SM_XVIRTUALSCREEN,
SM_YVIRTUALSCREEN, SM_CXVIRTUALSCREEN, SM_CYVIRTUALSCREEN) and the
system work area (SystemParametersInfo SPI_GETWORKAREA). -/
structure DisplayEnv where
  adapters : List Adapter
  vsX : Int
  vsY : Int
  vsW : Int
  vsH : Int
  workL : Int
  workT : Int
  workR : Int
  workB : Int
deriving DecidableEq

/-- Write one slot of the catalog array. -/
def setSlot (arr : Nat → MonEntry) (i : Nat) (e : MonEntry) : Nat → MonEntry :=
  fun j => if j = i then e else arr j

/-- The adapter filter of checkmonitors, display.cpp lines 41-42:
not a mirroring driver and attached to the desktop. -/
def qualifies (a : Adapter) : Bool :=
  !a.mirroring && a.attached

/-- The catalog entry written for an adapter: work rectangle and monitor
handle from GetMonitorInfo / MonitorFromPoint, geometry, depth,
frequency and position from the current DEVMODE, and the adapter device
name (display.cpp lines 96-127). -/
def mkEntry (a : Adapter) : MonEntry :=
  { wl := a.workl, wt := a.workt, wr := a.workr, wb := a.workb
    hm := a.hm
    width := a.width, height := a.height, depth := a.depth, freq := a.freq
    offsetx := a.posx, offsety := a.posy
    devicename := a.deviceName }

/-- The enumeration loop of checkmonitors (display.cpp lines 39-134).
State: the next free slot id (starts at 2), nr_monitors (starts at 1)
and the catalog array.  A qualifying adapter with a monitor handle is
written to slot 1 when it is the primary device, otherwise to slot id
(which then becomes nr_monitors and id advances); an adapter whose
MonitorFromPoint lookup yields no handle is skipped. -/
def procAdapters : List Adapter → Nat → Nat → (Nat → MonEntry) → Nat × (Nat → MonEntry)
  | [], _, nr, arr => (nr, arr)
  | a :: rest, id, nr, arr =>
    if qualifies a then
      match a.hm with
      | some _ =>
        if a.primary then
          procAdapters rest id nr (setSlot arr 1 (mkEntry a))
        else
          procAdapters rest (id + 1) id (setSlot arr id (mkEntry a))
      | none => procAdapters rest id nr arr
    else
      procAdapters rest id nr arr

/-- checkmonitors, display.cpp lines 28-166: runs the enumeration loop
and then writes the synthetic aggregate slot 0 spanning the virtual
screen (lines 135-165).  The aggregate work rectangle starts from the
system work area; the source then replaces its left edge with the
virtual-screen x offset when that is negative and - faithful to line
155, whose guard tests offsety but whose assignment reads offsetx -
replaces its top edge with the virtual-screen X offset when the Y
offset is negative; the right and bottom edges extend to the
virtual-screen size minus the non-work margin of slot 1.  Slot 0 keeps
its previous hm and freq, which the source never writes. -/
def checkmonitors (env : DisplayEnv) (init : Nat → MonEntry) : Nat × (Nat → MonEntry) :=
  let r := procAdapters env.adapters 2 1 init
  let arr := r.2
  let m1 := arr 1
  let left := if env.vsX < 0 then env.vsX else env.workL
  let top := if env.vsY < 0 then env.vsX else env.workT
  let right := left + env.vsW - (m1.width - (m1.wr - m1.wl))
  let bottom := top + env.vsH - (m1.height - (m1.wb - m1.wt))
  let agg : MonEntry :=
    { wl := left, wt := top, wr := right, wb := bottom
      hm := (arr 0).hm
      width := env.vsW, height := env.vsH, depth := m1.depth, freq := (arr 0).freq
      offsetx := env.vsX, offsety := env.vsY
      devicename := "All displays" }
  (r.1, setSlot arr 0 agg)

/-- The scan of getSelectedScreen, display.cpp lines 191-194: starting
at index i, with fuel counting the remaining iterations of the
inclusive loop bound, return the first index whose recorded monitor
handle equals the given one. -/
def scanScreens (arr : Nat → MonEntry) (h : Nat) : Nat → Nat → Option Nat
  | _, 0 => none
  | i, fuel + 1 => if (arr i).hm = some h then some i else scanScreens arr h (i + 1) fuel

/-- getSelectedScreen, display.cpp lines 186-196: 0 when monitor
spanning is allowed, otherwise the first index in 0..nr_monitors whose
recorded handle equals the handle of the monitor nearest the window
(MonitorFromWindow, passed here as hmon), and 0 when none matches. -/
def getSelectedScreen (arr : Nat → MonEntry) (nrMonitors : Nat) (hmon : Nat)
    (allowMonitorSpanning : Bool) : Nat :=
  if allowMonitorSpanning then 0
  else
    match scanScreens arr hmon 0 (nrMonitors + 1) with
    | some i => i
    | none => 0


lemma setSlot_same (arr : Nat → MonEntry) (i : Nat) (e : MonEntry) :
    setSlot arr i e i = e := by
  simp [setSlot]

lemma setSlot_other (arr : Nat → MonEntry) (i : Nat) (e : MonEntry) (j : Nat) (h : j ≠ i) :
    setSlot arr i e j = arr j := by
  simp [setSlot, h]

/-- An adapter that the enumeration loop writes to the primary slot 1. -/
def writesPrimary (a : Adapter) : Bool :=
  (qualifies a && a.primary) && a.hm.isSome

lemma proc_cons_skip (a : Adapter) (rest : List Adapter) (id nr : Nat) (arr : Nat → MonEntry)
    (h : qualifies a = false) :
    procAdapters (a :: rest) id nr arr = procAdapters rest id nr arr := by
  simp [procAdapters, h]

lemma proc_cons_nohandle (a : Adapter) (rest : List Adapter) (id nr : Nat)
    (arr : Nat → MonEntry) (hq : qualifies a = true) (hh : a.hm = none) :
    procAdapters (a :: rest) id nr arr = procAdapters rest id nr arr := by
  simp [procAdapters, hq, hh]

lemma proc_cons_primary (a : Adapter) (rest : List Adapter) (id nr : Nat)
    (arr : Nat → MonEntry) (h : Nat) (hq : qualifies a = true) (hh : a.hm = some h)
    (hp : a.primary = true) :
    procAdapters (a :: rest) id nr arr
      = procAdapters rest id nr (setSlot arr 1 (mkEntry a)) := by
  simp [procAdapters, hq, hh, hp]

lemma proc_cons_secondary (a : Adapter) (rest : List Adapter) (id nr : Nat)
    (arr : Nat → MonEntry) (h : Nat) (hq : qualifies a = true) (hh : a.hm = some h)
    (hp : a.primary = false) :
    procAdapters (a :: rest) id nr arr
      = procAdapters rest (id + 1) id (setSlot arr id (mkEntry a)) := by
  simp [procAdapters, hq, hh, hp]

lemma proc_untouched : ∀ (l : List Adapter) (id nr : Nat) (arr : Nat → MonEntry) (j : Nat),
    j ≠ 1 → j < id → (procAdapters l id nr arr).2 j = arr j := by
  intro l
  induction l with
  | nil => intro id nr arr j h1 h2; rfl
  | cons a rest ih =>
    intro id nr arr j h1 h2
    cases hq : qualifies a with
    | false => rw [proc_cons_skip a rest id nr arr hq]; exact ih id nr arr j h1 h2
    | true =>
      cases hh : a.hm with
      | none => rw [proc_cons_nohandle a rest id nr arr hq hh]; exact ih id nr arr j h1 h2
      | some h =>
        cases hp : a.primary with
        | true =>
          rw [proc_cons_primary a rest id nr arr h hq hh hp,
            ih id nr _ j h1 h2, setSlot_other _ _ _ _ h1]
        | false =>
          rw [proc_cons_secondary a rest id nr arr h hq hh hp,
            ih (id + 1) id _ j h1 (Nat.lt_succ_of_lt h2),
            setSlot_other _ _ _ _ (Nat.ne_of_lt h2)]

lemma proc_slot1 : ∀ (l : List Adapter) (id nr : Nat) (arr : Nat → MonEntry),
    2 ≤ id → (∀ a ∈ l, writesPrimary a = false) →
    (procAdapters l id nr arr).2 1 = arr 1 := by
  intro l
  induction l with
  | nil => intro id nr arr _ _; rfl
  | cons a rest ih =>
    intro id nr arr hid hall
    have hha : writesPrimary a = false := hall a (List.mem_cons_self a rest)
    have hrest : ∀ b ∈ rest, writesPrimary b = false :=
      fun b hb => hall b (List.mem_cons_of_mem a hb)
    cases hq : qualifies a with
    | false => rw [proc_cons_skip a rest id nr arr hq]; exact ih id nr arr hid hrest
    | true =>
      cases hh : a.hm with
      | none => rw [proc_cons_nohandle a rest id nr arr hq hh]; exact ih id nr arr hid hrest
      | some h =>
        cases hp : a.primary with
        | true =>
          exfalso
          simp [writesPrimary, hq, hp, hh] at hha
        | false =>
          rw [proc_cons_secondary a rest id nr arr h hq hh hp,
            ih (id + 1) id _ (Nat.le_succ_of_le hid) hrest,
            setSlot_other _ _ _ _ (by omega)]

lemma filter_length_cons_le (p : Adapter → Bool) (b : Adapter) (rest : List Adapter) :
    (rest.filter p).length ≤ ((b :: rest).filter p).length := by
  by_cases hpb : p b = true
  · simp [List.filter_cons, hpb]
  · simp [List.filter_cons, hpb]

lemma proc_mem : ∀ (l : List Adapter) (id nr : Nat) (arr : Nat → MonEntry),
    2 ≤ id →
    (∀ a ∈ l, qualifies a = true → a.hm.isSome) →
    (l.filter (fun a => qualifies a && a.primary)).length ≤ 1 →
    ∀ a ∈ l, qualifies a = true →
      ∃ i, 1 ≤ i ∧ (procAdapters l id nr arr).2 i = mkEntry a := by
  intro l
  induction l with
  | nil => intro id nr arr _ _ _ a ha; exact absurd ha (List.not_mem_nil a)
  | cons b rest ih =>
    intro id nr arr hid hhm hprim a ha hqa
    rcases List.mem_cons.mp ha with hab | hmem
    · -- the adapter under scrutiny is the head
      subst hab
      obtain ⟨h, hh⟩ := Option.isSome_iff_exists.mp (hhm a (List.mem_cons_self a rest) hqa)
      cases hp : a.primary with
      | true =>
        -- written to slot 1; no later adapter writes slot 1 again
        have hcons : (a :: rest).filter (fun x => qualifies x && x.primary)
            = a :: rest.filter (fun x => qualifies x && x.primary) := by
          simp [List.filter_cons, hqa, hp]
        have hlen : (rest.filter (fun x => qualifies x && x.primary)).length = 0 := by
          rw [hcons] at hprim
          simpa using hprim
        have hnil : rest.filter (fun x => qualifies x && x.primary) = [] :=
          List.length_eq_zero.mp hlen
        have hrest : ∀ x ∈ rest, writesPrimary x = false := by
          intro x hx
          have hx2 := List.filter_eq_nil_iff.mp hnil x hx
          simp only [writesPrimary]
          simp only [Bool.not_eq_true] at hx2
          simp [hx2]
        refine ⟨1, le_refl 1, ?_⟩
        rw [proc_cons_primary a rest id nr arr h hqa hh hp,
          proc_slot1 rest id nr _ hid hrest, setSlot_same]
      | false =>
        refine ⟨id, by omega, ?_⟩
        rw [proc_cons_secondary a rest id nr arr h hqa hh hp,
          proc_untouched rest (id + 1) id _ id (by omega) (by omega), setSlot_same]
    · -- the adapter under scrutiny is in the tail: step over the head
      have hhm2 : ∀ x ∈ rest, qualifies x = true → x.hm.isSome :=
        fun x hx => hhm x (List.mem_cons_of_mem b hx)
      have hprim2 : (rest.filter (fun x => qualifies x && x.primary)).length ≤ 1 :=
        le_trans (filter_length_cons_le _ b rest) hprim
      cases hq : qualifies b with
      | false =>
        rw [proc_cons_skip b rest id nr arr hq]
        exact ih id nr arr hid hhm2 hprim2 a hmem hqa
      | true =>
        cases hh : b.hm with
        | none =>
          rw [proc_cons_nohandle b rest id nr arr hq hh]
          exact ih id nr arr hid hhm2 hprim2 a hmem hqa
        | some h =>
          cases hp : b.primary with
          | true =>
            rw [proc_cons_primary b rest id nr arr h hq hh hp]
            exact ih id nr _ hid hhm2 hprim2 a hmem hqa
          | false =>
            rw [proc_cons_secondary b rest id nr arr h hq hh hp]
            exact ih (id + 1) id _ (Nat.le_succ_of_le hid) hhm2 hprim2 a hmem hqa

lemma proc_changed : ∀ (l : List Adapter) (id nr : Nat) (arr : Nat → MonEntry) (j : Nat),
    (procAdapters l id nr arr).2 j ≠ arr j →
    ∃ a, a ∈ l ∧ qualifies a = true ∧ (procAdapters l id nr arr).2 j = mkEntry a := by
  intro l
  induction l with
  | nil => intro id nr arr j hne; exact absurd rfl hne
  | cons b rest ih =>
    intro id nr arr j hne
    cases hq : qualifies b with
    | false =>
      rw [proc_cons_skip b rest id nr arr hq] at hne ⊢
      obtain ⟨a, ha, hqa, heq⟩ := ih id nr arr j hne
      exact ⟨a, List.mem_cons_of_mem b ha, hqa, heq⟩
    | true =>
      cases hh : b.hm with
      | none =>
        rw [proc_cons_nohandle b rest id nr arr hq hh] at hne ⊢
        obtain ⟨a, ha, hqa, heq⟩ := ih id nr arr j hne
        exact ⟨a, List.mem_cons_of_mem b ha, hqa, heq⟩
      | some h =>
        cases hp : b.primary with
        | true =>
          rw [proc_cons_primary b rest id nr arr h hq hh hp] at hne ⊢
          by_cases h2 : (procAdapters rest id nr (setSlot arr 1 (mkEntry b))).2 j
              = setSlot arr 1 (mkEntry b) j
          · by_cases hj : j = 1
            · subst hj
              exact ⟨b, List.mem_cons_self b rest, hq, by rw [h2, setSlot_same]⟩
            · rw [h2, setSlot_other _ _ _ _ hj] at hne
              exact absurd rfl hne
          · obtain ⟨a, ha, hqa, heq⟩ := ih id nr _ j h2
            exact ⟨a, List.mem_cons_of_mem b ha, hqa, heq⟩
        | false =>
          rw [proc_cons_secondary b rest id nr arr h hq hh hp] at hne ⊢
          by_cases h2 : (procAdapters rest (id + 1) id (setSlot arr id (mkEntry b))).2 j
              = setSlot arr id (mkEntry b) j
          · by_cases hj : j = id
            · subst hj
              exact ⟨b, List.mem_cons_self b rest, hq, by rw [h2, setSlot_same]⟩
            · rw [h2, setSlot_other _ _ _ _ hj] at hne
              exact absurd rfl hne
          · obtain ⟨a, ha, hqa, heq⟩ := ih (id + 1) id _ j h2
            exact ⟨a, List.mem_cons_of_mem b ha, hqa, heq⟩

lemma checkmonitors_slot_pos (env : DisplayEnv) (init : Nat → MonEntry) (j : Nat)
    (hj : 1 ≤ j) :
    (checkmonitors env init).2 j = (procAdapters env.adapters 2 1 init).2 j := by
  simp only [checkmonitors]
  exact setSlot_other _ _ _ _ (by omega)

lemma checkmonitors_nr (env : DisplayEnv) (init : Nat → MonEntry) :
    (checkmonitors env init).1 = (procAdapters env.adapters 2 1 init).1 := rfl

lemma scan_some (arr : Nat → MonEntry) (h : Nat) :
    ∀ (fuel i j : Nat), scanScreens arr h i fuel = some j →
      i ≤ j ∧ j < i + fuel ∧ (arr j).hm = some h ∧
      ∀ k, i ≤ k → k < j → (arr k).hm ≠ some h := by
  intro fuel
  induction fuel with
  | zero => intro i j hs; exact absurd hs (by simp [scanScreens])
  | succ fuel ih =>
    intro i j hs
    by_cases hm : (arr i).hm = some h
    · have hj : j = i := by
        simp [scanScreens, hm] at hs
        omega
      subst hj
      exact ⟨le_refl j, by omega, hm, fun k hk1 hk2 => absurd (lt_of_le_of_lt hk1 hk2) (lt_irrefl j)⟩
    · have hs2 : scanScreens arr h (i + 1) fuel = some j := by
        simpa [scanScreens, hm] using hs
      obtain ⟨h1, h2, h3, h4⟩ := ih (i + 1) j hs2
      refine ⟨by omega, by omega, h3, ?_⟩
      intro k hk1 hk2
      by_cases hki : k = i
      · subst hki; exact hm
      · exact h4 k (by omega) hk2

lemma scan_none (arr : Nat → MonEntry) (h : Nat) :
    ∀ (fuel i : Nat), scanScreens arr h i fuel = none →
      ∀ k, i ≤ k → k < i + fuel → (arr k).hm ≠ some h := by
  intro fuel
  induction fuel with
  | zero => intro i _ k hk1 hk2; omega
  | succ fuel ih =>
    intro i hs k hk1 hk2
    by_cases hm : (arr i).hm = some h
    · exact absurd hs (by simp [scanScreens, hm])
    · have hs2 : scanScreens arr h (i + 1) fuel = none := by
        simpa [scanScreens, hm] using hs
      by_cases hki : k = i
      · subst hki; exact hm
      · exact ih (i + 1) hs2 k (by omega) (by omega)

/-- Claim C10: getSelectedScreen returns 0 whenever monitor spanning is
allowed; otherwise it returns the first catalog index in 0..nr_monitors
whose recorded monitor handle equals the handle of the monitor nearest
the window, and 0 when no recorded handle matches; the result is always
between 0 and nr_monitors inclusive. -/
theorem c10_getSelectedScreen_spec (arr : Nat → MonEntry) (nr hmon : Nat) (span : Bool) :
    getSelectedScreen arr nr hmon span ≤ nr ∧
    (span = true → getSelectedScreen arr nr hmon span = 0) ∧
    (span = false →
      ((∃ i, i ≤ nr ∧ (arr i).hm = some hmon) →
        (arr (getSelectedScreen arr nr hmon span)).hm = some hmon ∧
        ∀ j, j < getSelectedScreen arr nr hmon span → (arr j).hm ≠ some hmon) ∧
      ((∀ i, i ≤ nr → (arr i).hm ≠ some hmon) → getSelectedScreen arr nr hmon span = 0)) := by
  cases span with
  | true =>
    refine ⟨by simp [getSelectedScreen], fun _ => by simp [getSelectedScreen], ?_⟩
    intro hfalse
    exact absurd hfalse (by simp)
  | false =>
    cases hscan : scanScreens arr hmon 0 (nr + 1) with
    | some j =>
      have hgss : getSelectedScreen arr nr hmon false = j := by
        simp [getSelectedScreen, hscan]
      obtain ⟨h1, h2, h3, h4⟩ := scan_some arr hmon (nr + 1) 0 j hscan
      refine ⟨by omega, fun htrue => absurd htrue (by simp), ?_⟩
      intro _
      constructor
      · intro _
        rw [hgss]
        exact ⟨h3, fun k hk => h4 k (Nat.zero_le k) hk⟩
      · intro hall
        exact absurd h3 (hall j (by omega))
    | none =>
      have hgss : getSelectedScreen arr nr hmon false = 0 := by
        simp [getSelectedScreen, hscan]
      refine ⟨by omega, fun htrue => absurd htrue (by simp), ?_⟩
      intro _
      constructor
      · intro hex
        obtain ⟨i, hi, hmatch⟩ := hex
        exact absurd hmatch (scan_none arr hmon (nr + 1) 0 hscan i (Nat.zero_le i) (by omega))
      · intro _
        exact hgss

/-- A blank catalog slot used by the concrete witness states. -/
def entW : MonEntry :=
  { wl := 0, wt := 0, wr := 0, wb := 0, hm := none, width := 0, height := 0,
    depth := 0, freq := 0, offsetx := 0, offsety := 0, devicename := "" }

def arrW : Nat → MonEntry :=
  fun j => if j = 1 then { entW with hm := some 5 } else entW

/-- Witness for C10: a concrete catalog where the nearest monitor is
recorded at index 1 out of nr_monitors 2. -/
theorem c10_witness :
    (∃ i, i ≤ 2 ∧ (arrW i).hm = some 5) ∧
    (arrW (getSelectedScreen arrW 2 5 false)).hm = some 5 ∧
    (∀ j, j < getSelectedScreen arrW 2 5 false → (arrW j).hm ≠ some 5) ∧
    getSelectedScreen arrW 2 5 false ≤ 2 := by
  have h := c10_getSelectedScreen_spec arrW 2 5 false
  have hex : ∃ i, i ≤ 2 ∧ (arrW i).hm = some 5 := ⟨1, by omega, by decide⟩
  have h3 := (h.2.2 rfl).1 hex
  exact ⟨hex, h3.1, h3.2, h.1⟩

/-- Claim C7: the refreshed catalog includes exactly the enumerated
adapters that are attached to the desktop and not mirroring drivers -
each such adapter (given that the OS supplies a monitor handle for it
and reports at most one primary device) gets a slot carrying its
geometry, depth, frequency, position and device name; slots above 0 are
only ever written from qualifying adapters; and an empty enumeration
still completes, leaving nr_monitors 1 and the aggregate entry. -/
theorem c7_refresh_includes_exactly_qualifying (env : DisplayEnv) (init : Nat → MonEntry)
    (hhandles : ∀ a ∈ env.adapters, qualifies a = true → a.hm.isSome)
    (hprimary : (env.adapters.filter (fun a => qualifies a && a.primary)).length ≤ 1) :
    (∀ a ∈ env.adapters, qualifies a = true →
      ∃ i, 1 ≤ i ∧ (checkmonitors env init).2 i = mkEntry a) ∧
    (∀ j, 1 ≤ j → (checkmonitors env init).2 j ≠ init j →
      ∃ a, a ∈ env.adapters ∧ qualifies a = true ∧ (checkmonitors env init).2 j = mkEntry a) ∧
    (env.adapters = [] → (checkmonitors env init).1 = 1 ∧
      ((checkmonitors env init).2 0).devicename = "All displays") := by
  refine ⟨?_, ?_, ?_⟩
  · intro a ha hqa
    obtain ⟨i, hi, heq⟩ := proc_mem env.adapters 2 1 init (le_refl 2) hhandles hprimary a ha hqa
    refine ⟨i, hi, ?_⟩
    rw [checkmonitors_slot_pos env init i hi]
    exact heq
  · intro j hj hne
    rw [checkmonitors_slot_pos env init j hj] at hne ⊢
    exact proc_changed env.adapters 2 1 init j hne
  · intro hempty
    constructor
    · rw [checkmonitors_nr, hempty]
      rfl
    · simp only [checkmonitors]
      rw [setSlot_same]

/-- Concrete witness adapters: a primary, a secondary and a mirroring
driver (the latter excluded from the catalog). -/
def aPrimW : Adapter :=
  { mirroring := false, attached := true, primary := true, deviceName := "DISPLAY1",
    width := 1920, height := 1080, depth := 32, freq := 60, posx := 0, posy := 0,
    hm := some 10, workl := 0, workt := 0, workr := 1920, workb := 1040 }

def aSecW : Adapter :=
  { mirroring := false, attached := true, primary := false, deviceName := "DISPLAY2",
    width := 1920, height := 1080, depth := 32, freq := 60, posx := 1920, posy := 0,
    hm := some 11, workl := 1920, workt := 0, workr := 3840, workb := 1080 }

def aMirW : Adapter :=
  { mirroring := true, attached := true, primary := false, deviceName := "MIRROR1",
    width := 1920, height := 1080, depth := 32, freq := 60, posx := 0, posy := 0,
    hm := some 12, workl := 0, workt := 0, workr := 1920, workb := 1080 }

def envW : DisplayEnv :=
  { adapters := [aPrimW, aSecW, aMirW], vsX := 0, vsY := 0, vsW := 3840, vsH := 1080,
    workL := 0, workT := 0, workR := 1920, workB := 1040 }

def initW : Nat → MonEntry := fun _ => entW

/-- Witness for C7 at a concrete three-adapter enumeration. -/
theorem c7_witness :
    (∀ a ∈ envW.adapters, qualifies a = true → a.hm.isSome) ∧
    ((envW.adapters.filter (fun a => qualifies a && a.primary)).length ≤ 1) ∧
    ((∀ a ∈ envW.adapters, qualifies a = true →
      ∃ i, 1 ≤ i ∧ (checkmonitors envW initW).2 i = mkEntry a) ∧
    (∀ j, 1 ≤ j → (checkmonitors envW initW).2 j ≠ initW j →
      ∃ a, a ∈ envW.adapters ∧ qualifies a = true ∧
        (checkmonitors envW initW).2 j = mkEntry a) ∧
    (envW.adapters = [] → (checkmonitors envW initW).1 = 1 ∧
      ((checkmonitors envW initW).2 0).devicename = "All displays")) := by
  have h1 : ∀ a ∈ envW.adapters, qualifies a = true → a.hm.isSome := by decide
  have h2 : ((envW.adapters.filter (fun a => qualifies a && a.primary)).length ≤ 1) := by decide
  exact ⟨h1, h2, c7_refresh_includes_exactly_qualifying envW initW h1 h2⟩

/-- Concrete environment exercising the aggregate work-rectangle code of
checkmonitors with a monitor above the primary: the virtual screen has
a negative top offset (-1080) and a zero left offset. -/
def aPrimB : Adapter :=
  { mirroring := false, attached := true, primary := true, deviceName := "DISPLAY1",
    width := 1920, height := 1080, depth := 32, freq := 60, posx := 0, posy := 0,
    hm := some 10, workl := 0, workt := 0, workr := 1920, workb := 1080 }

def aSecB : Adapter :=
  { mirroring := false, attached := true, primary := false, deviceName := "DISPLAY2",
    width := 1920, height := 1080, depth := 32, freq := 60, posx := 0, posy := -1080,
    hm := some 11, workl := 0, workt := -1080, workr := 1920, workb := 0 }

def envB : DisplayEnv :=
  { adapters := [aPrimB, aSecB], vsX := 0, vsY := -1080, vsW := 1920, vsH := 2160,
    workL := 0, workT := 0, workR := 1920, workB := 1080 }

/-- Claim C6: the aggregate slot 0 does carry the device name
"All displays" and the virtual-screen width, height and offsets, but
its work-rectangle top is not the work area shifted by the negative top
offset: with the virtual screen spanning y = -1080..1080 at x offset 0,
the code stores top 0 (the X offset, assigned at display.cpp line 155
under a guard that tests the Y offset) where the claimed shift gives
-1080. -/
theorem c6_aggregate_workrect_top_bug :
    ((checkmonitors envB initW).2 0).devicename = "All displays" ∧
    ((checkmonitors envB initW).2 0).width = 1920 ∧
    ((checkmonitors envB initW).2 0).height = 2160 ∧
    ((checkmonitors envB initW).2 0).offsetx = 0 ∧
    ((checkmonitors envB initW).2 0).offsety = -1080 ∧
    ((checkmonitors envB initW).2 0).wt = 0 ∧
    ((checkmonitors envB initW).2 0).wt ≠ envB.workT + envB.vsY := by
  decide

end DisplayCatalog

namespace VirtualDisplayModel

/-- Modelled from the spec: the implementation of the VirtualDisplay
class is missing from the snapshot (VirtualDisplay.h only declares it),
so device names are abstract: either the name of a real display as
recorded by recordDisplayNames, or a generated virtual-device name
carrying the incrementing suffix of the naming policy (4.3). -/
inductive DeviceName where
  | real (label : String)
  | virt (suffix : Nat)
deriving DecidableEq

/-- One catalog entry, after the DISPLAYINFO declaration of
VirtualDisplay.h lines 65-70: geometry from the DEVMODE, the device
name and the primary flag. -/
structure DISPLAYINFO where
  width : Nat
  height : Nat
  devicenaam : DeviceName
  primary : Bool
deriving DecidableEq

/-- One per-client virtual device record, after the VIRTUALDISPLAY
declaration of VirtualDisplay.h lines 72-79: owning clientId, device
name, device handle and the singleExtendMode flag.  The readiness-event
handle is consumed during creation and not kept by the model. -/
structure VIRTUALDISPLAY where
  clientId : Nat
  devicenaam : DeviceName
  hDevice : Nat
  singleExtendMode : Bool
deriving DecidableEq

/-- The display strategies of VirtualDisplay.h line 56. -/
inductive DisplayMode where
  | dmDisplay
  | dmVirtual
  | dmExtend
  | dmExtendOnly
deriving DecidableEq

/-- Modelled from the spec: the mutable state of the VirtualDisplay
controller, after the private members of VirtualDisplay.h lines
104-114: the display catalog (diplayInfoList), the per-client records
(virtualDisplayList), the in-use name registry (displayList), the
restoration flag, the saved pre-attach real configuration, and the OS
primary-display designation driven by ChangePrimaryMonitor. -/
structure VDState where
  diplayInfoList : List DISPLAYINFO
  virtualDisplayList : List VIRTUALDISPLAY
  displayList : List DeviceName
  restoreNeeded : Bool
  savedConfig : List DISPLAYINFO
  primaryName : Option DeviceName
deriving DecidableEq

/-- Modelled from the spec (4.3 naming policy): try suffixes from n
upward, bumping past any name the registry already holds; the fuel
bounds the candidates tried and always suffices when it exceeds the
registry length. -/
def freshSuffix (reg : List DeviceName) : Nat → Nat → Nat
  | 0, n => n
  | fuel + 1, n => if DeviceName.virt n ∈ reg then freshSuffix reg fuel (n + 1) else n

/-- Modelled from the spec (4.3, getSetDisplayName of VirtualDisplay.h
line 121): the suffix of the next generated device name. -/
def newSuffix (reg : List DeviceName) : Nat :=
  freshSuffix reg (reg.length + 1) 0

def newDisplayName (reg : List DeviceName) : DeviceName :=
  DeviceName.virt (newSuffix reg)

/-- The shared-memory resolution block, after the SUPPORTEDMONITORS
declaration of VirtualDisplay.h lines 58-63: a counter and the w and h
arrays of capacity 200, modelled as total functions whose meaningful
region is 0..counter-1. -/
structure SUPPORTEDMONITORS where
  counter : Nat
  w : Nat → Nat
  h : Nat → Nat

def setIdx (f : Nat → Nat) (i v : Nat) : Nat → Nat :=
  fun j => if j = i then v else f j

/-- Modelled from the spec (4.5 publish): append one (width, height)
pair at the next free index while the counter is below the capacity
200, and drop it otherwise. -/
def publishStep (p : SUPPORTEDMONITORS) (wh : Nat × Nat) : SUPPORTEDMONITORS :=
  if p.counter < 200 then
    { counter := p.counter + 1,
      w := setIdx p.w p.counter wh.1,
      h := setIdx p.h p.counter wh.2 }
  else p

def publishList : List (Nat × Nat) → SUPPORTEDMONITORS → SUPPORTEDMONITORS
  | [], p => p
  | wh :: rest, p => publishList rest (publishStep p wh)

/-- Modelled from the spec (4.5): publish a resolution list into an
empty shared block. -/
def publish (l : List (Nat × Nat)) : SUPPORTEDMONITORS :=
  publishList l { counter := 0, w := fun _ => 0, h := fun _ => 0 }

/-- Modelled from the spec (4.3 attach): the devices one call must
create.  dmDisplay creates none; dmVirtual creates one combined device
sized to the bounding box of the applied resolutions, matching the
one-device-per-client invariant of section 3; the extend modes create
one device per distinct applied resolution. -/
def devicesNeeded (mode : DisplayMode) (rm : List ((Nat × Nat) × (Nat × Nat))) :
    List (Nat × Nat) :=
  match mode with
  | .dmDisplay => []
  | .dmVirtual => [rm.foldl (fun acc p => (max acc.1 p.2.1, max acc.2 p.2.2)) (0, 0)]
  | .dmExtend => (rm.map (fun p => p.2)).dedup
  | .dmExtendOnly => (rm.map (fun p => p.2)).dedup

def ownedBy (c : Nat) : List VIRTUALDISPLAY → List VIRTUALDISPLAY
  | [] => []
  | r :: rest => if r.clientId = c then r :: ownedBy c rest else ownedBy c rest

def dropOwnedBy (c : Nat) : List VIRTUALDISPLAY → List VIRTUALDISPLAY
  | [] => []
  | r :: rest => if r.clientId = c then dropOwnedBy c rest else r :: dropOwnedBy c rest

/-- Drop from a list every element whose device name is in the given
name set. -/
def removeBy {α : Type} (key : α → DeviceName) (names : List DeviceName) : List α → List α
  | [] => []
  | x :: rest =>
    if key x ∈ names then removeBy key names rest else x :: removeBy key names rest

def removeNames (names : List DeviceName) (l : List DeviceName) : List DeviceName :=
  removeBy (fun n => n) names l

def removeEntries (names : List DeviceName) (l : List DISPLAYINFO) : List DISPLAYINFO :=
  removeBy (fun e => e.devicenaam) names l

def removeRecords (names : List DeviceName) (l : List VIRTUALDISPLAY) : List VIRTUALDISPLAY :=
  removeBy (fun r => r.devicenaam) names l

/-- Modelled from the spec (4.3 detach): remove and close every record
owned by the client, drop their device names from the registry and
their catalog entries; a primary designation naming a removed device
lapses. -/
def detachClient (c : Nat) (s : VDState) : VDState :=
  let names := (ownedBy c s.virtualDisplayList).map (fun r => r.devicenaam)
  { diplayInfoList := removeEntries names s.diplayInfoList,
    virtualDisplayList := dropOwnedBy c s.virtualDisplayList,
    displayList := removeNames names s.displayList,
    restoreNeeded := s.restoreNeeded,
    savedConfig := s.savedConfig,
    primaryName :=
      match s.primaryName with
      | some p => if p ∈ names then none else some p
      | none => none }

/-- Modelled from the spec (4.2 createDevice, 4.3 attach): create one
software device under a freshly generated name and register its record,
its name and its catalog entry (never primary).  The fresh suffix
doubles as the device handle. -/
def addDevice (c : Nat) (sem : Bool) (wh : Nat × Nat) (s : VDState) : VDState × DeviceName :=
  let n := newSuffix s.displayList
  let name := DeviceName.virt n
  ({ s with
      virtualDisplayList := s.virtualDisplayList ++
        [{ clientId := c, devicenaam := name, hDevice := n, singleExtendMode := sem }],
      displayList := s.displayList ++ [name],
      diplayInfoList := s.diplayInfoList ++
        [{ width := wh.1, height := wh.2, devicenaam := name, primary := false }] },
    name)

/-- Modelled from the spec (section 7, DeviceCreateTimeout handling):
close and remove every device created by the failing call - its
records, names and catalog entries. -/
def rollback (created : List DeviceName) (s : VDState) : VDState :=
  { s with
      virtualDisplayList := removeRecords created s.virtualDisplayList,
      displayList := removeNames created s.displayList,
      diplayInfoList := removeEntries created s.diplayInfoList }

/-- Modelled from the spec (4.2, 4.3): create the planned devices in
order.  The outcome oracle says, per creation, whether the OS callback
signalled the readiness event within the bounded timeout; the first
failure closes the half-created handle, rolls back every device made by
this call and reports the resource error (false). -/
def createLoop (c : Nat) (sem : Bool) :
    List (Nat × Nat) → List Bool → List DeviceName → VDState →
      Bool × VDState × List DeviceName
  | [], _, created, s => (true, s, created)
  | wh :: rest, outcomes, created, s =>
    if outcomes.headD false then
      createLoop c sem rest outcomes.tail
        (created ++ [(addDevice c sem wh s).2]) (addDevice c sem wh s).1
    else
      (false, rollback created s, created)

/-- Modelled from the spec (4.4): restore the saved real configuration
when a snapshot is pending. -/
def restoreConfig (s : VDState) : VDState :=
  if s.restoreNeeded then
    { s with diplayInfoList := s.savedConfig, restoreNeeded := false }
  else s

/-- Modelled from the spec (4.4 attachDisplay): the creation run of one
device-creating attach call - tear down any prior records of the same
client, then create the needed devices (singleExtendMode forced off for
dmVirtual) against the empty created-so-far accumulator. -/
def loopOf (mode : DisplayMode) (rm : List ((Nat × Nat) × (Nat × Nat))) (sem : Bool)
    (c : Nat) (outcomes : List Bool) (s : VDState) : Bool × VDState × List DeviceName :=
  createLoop c (if mode = DisplayMode.dmVirtual then false else sem)
    (devicesNeeded mode rm) outcomes [] (detachClient c s)

/-- Modelled from the spec (4.4): the state finishing a successful
device-creating attach - when at least one device was created and no
snapshot is pending, the pre-creation catalog pre is saved for later
restoration; dmExtendOnly then designates the last created device as
the primary. -/
def attachSuccessState (mode : DisplayMode) (pre : List DISPLAYINFO) (st : VDState)
    (created : List DeviceName) : VDState :=
  let s3 :=
    if created ≠ [] ∧ st.restoreNeeded = false then
      { st with savedConfig := pre, restoreNeeded := true }
    else st
  if mode = DisplayMode.dmExtendOnly then
    { s3 with primaryName := created.getLast? }
  else s3

def attachCore (mode : DisplayMode) (rm : List ((Nat × Nat) × (Nat × Nat))) (sem : Bool)
    (c : Nat) (outcomes : List Bool) (s : VDState) : Bool × VDState × List DeviceName :=
  let r := loopOf mode rm sem c outcomes s
  if r.1 then
    (true, attachSuccessState mode (detachClient c s).diplayInfoList r.2.1 r.2.2, r.2.2)
  else (false, r.2.1, r.2.2)

/-- Modelled from the spec (4.4 attachDisplay, section 6): dmDisplay
only binds the client to a real display for screen selection, creating
nothing; with the driver unavailable the call degrades silently to
mirror mode; any other mode runs the device-creating path. -/
def attachDisplay (mode : DisplayMode) (rm : List ((Nat × Nat) × (Nat × Nat)))
    (sem : Bool) (c : Nat) (driver : Bool) (outcomes : List Bool) (s : VDState) :
    Bool × VDState × List DeviceName :=
  match mode with
  | .dmDisplay => (true, s, [])
  | _ => if driver then attachCore mode rm sem c outcomes s else (true, s, [])

/-- Modelled from the spec (4.4 disconnectDisplay): detach the client,
then restore the saved real configuration when the caller marks the
last viewer or no virtual devices remain anywhere. -/
def disconnectDisplay (c : Nat) (lastViewer : Bool) (s : VDState) : VDState :=
  let s1 := detachClient c s
  if lastViewer ∨ s1.virtualDisplayList = [] then restoreConfig s1 else s1

/-- One control-plane call, used to state trace-level invariants. -/
inductive VDOp where
  | attach (mode : DisplayMode) (rm : List ((Nat × Nat) × (Nat × Nat))) (sem : Bool)
      (c : Nat) (driver : Bool) (outcomes : List Bool)
  | disconnect (c : Nat) (lastViewer : Bool)

def applyOp (s : VDState) (op : VDOp) : VDState :=
  match op with
  | .attach mode rm sem c driver outcomes => (attachDisplay mode rm sem c driver outcomes s).2.1
  | .disconnect c last => disconnectDisplay c last s

def runOps (ops : List VDOp) (s : VDState) : VDState :=
  ops.foldl applyOp s

lemma freshSuffix_free (reg : List DeviceName) :
    ∀ (fuel n : Nat), (∃ k, k < fuel ∧ DeviceName.virt (n + k) ∉ reg) →
      DeviceName.virt (freshSuffix reg fuel n) ∉ reg := by
  intro fuel
  induction fuel with
  | zero =>
    intro n h
    obtain ⟨k, hk, _⟩ := h
    omega
  | succ fuel ih =>
    intro n h
    by_cases hmem : DeviceName.virt n ∈ reg
    · have h2 : ∃ k, k < fuel ∧ DeviceName.virt ((n + 1) + k) ∉ reg := by
        obtain ⟨k, hk, hnot⟩ := h
        cases k with
        | zero => exact absurd hmem (by simpa using hnot)
        | succ k2 =>
          refine ⟨k2, by omega, ?_⟩
          have harith : n + 1 + k2 = n + (k2 + 1) := by omega
          rw [harith]
          exact hnot
      rw [show freshSuffix reg (fuel + 1) n = freshSuffix reg fuel (n + 1) by
        simp [freshSuffix, hmem]]
      exact ih (n + 1) h2
    · rw [show freshSuffix reg (fuel + 1) n = n by simp [freshSuffix, hmem]]
      exact hmem

lemma exists_free_suffix (reg : List DeviceName) :
    ∃ k, k < reg.length + 1 ∧ DeviceName.virt (0 + k) ∉ reg := by
  by_contra hall
  push_neg at hall
  have hinj : Function.Injective DeviceName.virt := by
    intro a b hab
    injection hab
  have hsub : (Finset.range (reg.length + 1)).image DeviceName.virt ⊆ reg.toFinset := by
    intro x hx
    obtain ⟨k, hk, rfl⟩ := Finset.mem_image.mp hx
    rw [List.mem_toFinset]
    simpa using hall k (Finset.mem_range.mp hk)
  have hcard : reg.length + 1 ≤ reg.toFinset.card := by
    calc reg.length + 1
        = ((Finset.range (reg.length + 1)).image DeviceName.virt).card := by
          rw [Finset.card_image_of_injective _ hinj, Finset.card_range]
      _ ≤ reg.toFinset.card := Finset.card_le_card hsub
  have hle := reg.toFinset_card_le
  omega

/-- The naming policy never hands out a name the registry holds. -/
lemma newDisplayName_not_mem (reg : List DeviceName) : newDisplayName reg ∉ reg := by
  obtain ⟨k, hk, hfree⟩ := exists_free_suffix reg
  exact freshSuffix_free reg (reg.length + 1) 0 ⟨k, hk, hfree⟩

lemma mem_removeBy {α : Type} (key : α → DeviceName) (names : List DeviceName) :
    ∀ (l : List α) (x : α), x ∈ removeBy key names l ↔ x ∈ l ∧ key x ∉ names := by
  intro l
  induction l with
  | nil => intro x; simp [removeBy]
  | cons y rest ih =>
    intro x
    by_cases hy : key y ∈ names
    · rw [show removeBy key names (y :: rest) = removeBy key names rest by
        simp [removeBy, hy]]
      rw [ih x]
      constructor
      · rintro ⟨h1, h2⟩
        exact ⟨List.mem_cons_of_mem y h1, h2⟩
      · rintro ⟨h1, h2⟩
        rcases List.mem_cons.mp h1 with rfl | h3
        · exact absurd hy h2
        · exact ⟨h3, h2⟩
    · rw [show removeBy key names (y :: rest) = y :: removeBy key names rest by
        simp [removeBy, hy]]
      rw [List.mem_cons, ih x]
      constructor
      · rintro (rfl | ⟨h1, h2⟩)
        · exact ⟨List.mem_cons_self x rest, hy⟩
        · exact ⟨List.mem_cons_of_mem y h1, h2⟩
      · rintro ⟨h1, h2⟩
        rcases List.mem_cons.mp h1 with rfl | h3
        · exact Or.inl rfl
        · exact Or.inr ⟨h3, h2⟩

lemma removeBy_nil_names {α : Type} (key : α → DeviceName) :
    ∀ l : List α, removeBy key [] l = l := by
  intro l
  induction l with
  | nil => rfl
  | cons y rest ih => simp [removeBy, ih]

lemma removeBy_append {α : Type} (key : α → DeviceName) (names : List DeviceName) :
    ∀ l1 l2 : List α,
      removeBy key names (l1 ++ l2) = removeBy key names l1 ++ removeBy key names l2 := by
  intro l1 l2
  induction l1 with
  | nil => rfl
  | cons y rest ih =>
    by_cases hy : key y ∈ names
    · simp [removeBy, hy, ih]
    · simp [removeBy, hy, ih]

lemma removeBy_sublist {α : Type} (key : α → DeviceName) (names : List DeviceName) :
    ∀ l : List α, (removeBy key names l).Sublist l := by
  intro l
  induction l with
  | nil => exact List.Sublist.refl []
  | cons y rest ih =>
    by_cases hy : key y ∈ names
    · rw [show removeBy key names (y :: rest) = removeBy key names rest by
        simp [removeBy, hy]]
      exact List.Sublist.cons y ih
    · rw [show removeBy key names (y :: rest) = y :: removeBy key names rest by
        simp [removeBy, hy]]
      exact List.Sublist.cons₂ y ih

/-- Widening the removed-name set by a name no list element carries
changes nothing. -/
lemma removeBy_extend {α : Type} (key : α → DeviceName) (names : List DeviceName)
    (nm : DeviceName) :
    ∀ l : List α, (∀ x ∈ l, key x ≠ nm) →
      removeBy key (names ++ [nm]) l = removeBy key names l := by
  intro l
  induction l with
  | nil => intro _; rfl
  | cons y rest ih =>
    intro hl
    have hy : key y ≠ nm := hl y (List.mem_cons_self y rest)
    have hrest := fun x hx => hl x (List.mem_cons_of_mem y hx)
    by_cases hmem : key y ∈ names
    · rw [show removeBy key (names ++ [nm]) (y :: rest)
          = removeBy key (names ++ [nm]) rest by
        simp [removeBy, List.mem_append, hmem]]
      rw [show removeBy key names (y :: rest) = removeBy key names rest by
        simp [removeBy, hmem]]
      exact ih hrest
    · have hnot : key y ∉ names ++ [nm] := by
        simp [List.mem_append, hmem, hy]
      rw [show removeBy key (names ++ [nm]) (y :: rest)
          = y :: removeBy key (names ++ [nm]) rest by
        simp [removeBy, hnot]]
      rw [show removeBy key names (y :: rest) = y :: removeBy key names rest by
        simp [removeBy, hmem]]
      rw [ih hrest]

lemma removeBy_singleton_drop {α : Type} (key : α → DeviceName) (names : List DeviceName)
    (x : α) (h : key x ∈ names) : removeBy key names [x] = [] := by
  simp [removeBy, h]

lemma ownedBy_append (c : Nat) :
    ∀ l1 l2, ownedBy c (l1 ++ l2) = ownedBy c l1 ++ ownedBy c l2 := by
  intro l1 l2
  induction l1 with
  | nil => rfl
  | cons r rest ih =>
    by_cases hr : r.clientId = c
    · simp [ownedBy, hr, ih]
    · simp [ownedBy, hr, ih]

lemma ownedBy_eq_nil (c : Nat) :
    ∀ l, (∀ r ∈ l, r.clientId ≠ c) → ownedBy c l = [] := by
  intro l
  induction l with
  | nil => intro _; rfl
  | cons r rest ih =>
    intro h
    have hr : r.clientId ≠ c := h r (List.mem_cons_self r rest)
    rw [show ownedBy c (r :: rest) = ownedBy c rest by simp [ownedBy, hr]]
    exact ih (fun x hx => h x (List.mem_cons_of_mem r hx))

lemma ownedBy_eq_self (c : Nat) :
    ∀ l, (∀ r ∈ l, r.clientId = c) → ownedBy c l = l := by
  intro l
  induction l with
  | nil => intro _; rfl
  | cons r rest ih =>
    intro h
    have hr : r.clientId = c := h r (List.mem_cons_self r rest)
    rw [show ownedBy c (r :: rest) = r :: ownedBy c rest by simp [ownedBy, hr]]
    rw [ih (fun x hx => h x (List.mem_cons_of_mem r hx))]

lemma dropOwnedBy_eq_self (c : Nat) :
    ∀ l, (∀ r ∈ l, r.clientId ≠ c) → dropOwnedBy c l = l := by
  intro l
  induction l with
  | nil => intro _; rfl
  | cons r rest ih =>
    intro h
    have hr : r.clientId ≠ c := h r (List.mem_cons_self r rest)
    rw [show dropOwnedBy c (r :: rest) = r :: dropOwnedBy c rest by simp [dropOwnedBy, hr]]
    rw [ih (fun x hx => h x (List.mem_cons_of_mem r hx))]

lemma ownedBy_dropOwnedBy (c : Nat) :
    ∀ l, ownedBy c (dropOwnedBy c l) = [] := by
  intro l
  induction l with
  | nil => rfl
  | cons r rest ih =>
    by_cases hr : r.clientId = c
    · simp [dropOwnedBy, hr, ih]
    · simp [dropOwnedBy, ownedBy, hr, ih]

lemma ownedBy_dropOwnedBy_other (c d : Nat) (hdc : d ≠ c) :
    ∀ l, ownedBy d (dropOwnedBy c l) = ownedBy d l := by
  intro l
  induction l with
  | nil => rfl
  | cons r rest ih =>
    by_cases hr : r.clientId = c
    · have hrd : r.clientId ≠ d := by rw [hr]; exact fun h => hdc h.symm
      simp [dropOwnedBy, hr, ownedBy, hrd, Ne.symm hdc, ih]
    · by_cases hrd : r.clientId = d
      · simp [dropOwnedBy, hr, ownedBy, hrd, hdc, ih]
      · simp [dropOwnedBy, hr, ownedBy, hrd, ih]

lemma mem_dropOwnedBy (c : Nat) :
    ∀ (l : List VIRTUALDISPLAY) (r : VIRTUALDISPLAY),
      r ∈ dropOwnedBy c l → r ∈ l := by
  intro l
  induction l with
  | nil => intro r h; exact absurd h (List.not_mem_nil r)
  | cons y rest ih =>
    intro r h
    by_cases hy : y.clientId = c
    · rw [show dropOwnedBy c (y :: rest) = dropOwnedBy c rest by
        simp [dropOwnedBy, hy]] at h
      exact List.mem_cons_of_mem y (ih r h)
    · rw [show dropOwnedBy c (y :: rest) = y :: dropOwnedBy c rest by
        simp [dropOwnedBy, hy]] at h
      rcases List.mem_cons.mp h with rfl | h2
      · exact List.mem_cons_self r rest
      · exact List.mem_cons_of_mem y (ih r h2)

lemma detach_records (c : Nat) (s : VDState) :
    (detachClient c s).virtualDisplayList = dropOwnedBy c s.virtualDisplayList := rfl

lemma detach_restoreNeeded (c : Nat) (s : VDState) :
    (detachClient c s).restoreNeeded = s.restoreNeeded := rfl

lemma detach_savedConfig (c : Nat) (s : VDState) :
    (detachClient c s).savedConfig = s.savedConfig := rfl

lemma detach_no_records (c : Nat) (s : VDState)
    (h : ∀ r ∈ s.virtualDisplayList, r.clientId ≠ c) : detachClient c s = s := by
  cases s with
  | mk cat recs reg rn saved prim =>
    have hnil : ownedBy c recs = [] := ownedBy_eq_nil c recs h
    simp only [detachClient, hnil, List.map_nil, removeEntries, removeNames,
      dropOwnedBy_eq_self c recs h]
    rw [removeBy_nil_names, removeBy_nil_names]
    cases prim with
    | none => rfl
    | some p => simp

lemma detach_catNames (c : Nat) (s : VDState)
    (h : ∀ e ∈ s.diplayInfoList, e.devicenaam ∈ s.displayList) :
    ∀ e ∈ (detachClient c s).diplayInfoList,
      e.devicenaam ∈ (detachClient c s).displayList := by
  intro e he
  have he1 : e ∈ removeBy (fun x : DISPLAYINFO => x.devicenaam)
      ((ownedBy c s.virtualDisplayList).map (fun r => r.devicenaam)) s.diplayInfoList := he
  have he2 := (mem_removeBy (fun x : DISPLAYINFO => x.devicenaam)
      ((ownedBy c s.virtualDisplayList).map (fun r => r.devicenaam)) s.diplayInfoList e).mp he1
  show e.devicenaam ∈ removeBy (fun n : DeviceName => n)
      ((ownedBy c s.virtualDisplayList).map (fun r => r.devicenaam)) s.displayList
  exact (mem_removeBy (fun n : DeviceName => n) _ s.displayList e.devicenaam).mpr
    ⟨h e he2.1, he2.2⟩

lemma detach_primReg (c : Nat) (s : VDState)
    (h : ∀ p, s.primaryName = some p → p ∈ s.displayList) :
    ∀ p, (detachClient c s).primaryName = some p →
      p ∈ (detachClient c s).displayList := by
  intro p hp
  cases hsp : s.primaryName with
  | none =>
    have hn : (detachClient c s).primaryName = none := by
      simp [detachClient, hsp]
    rw [hn] at hp
    exact Option.noConfusion hp
  | some q =>
    by_cases hq : q ∈ (ownedBy c s.virtualDisplayList).map (fun r => r.devicenaam)
    · have hn : (detachClient c s).primaryName = none := by
        simp [detachClient, hsp, hq]
      rw [hn] at hp
      exact Option.noConfusion hp
    · have hqp : (detachClient c s).primaryName = some q := by
        simp [detachClient, hsp, hq]
      rw [hqp] at hp
      obtain rfl : q = p := Option.some.inj hp
      exact (mem_removeBy (fun n => n) _ s.displayList q).mpr ⟨h q hsp, hq⟩

lemma addDevice_name (c : Nat) (sem : Bool) (wh : Nat × Nat) (s : VDState) :
    (addDevice c sem wh s).2 = newDisplayName s.displayList := rfl

lemma addDevice_records (c : Nat) (sem : Bool) (wh : Nat × Nat) (s : VDState) :
    ((addDevice c sem wh s).1).virtualDisplayList = s.virtualDisplayList ++
      [{ clientId := c, devicenaam := newDisplayName s.displayList,
         hDevice := newSuffix s.displayList, singleExtendMode := sem }] := rfl

lemma addDevice_names (c : Nat) (sem : Bool) (wh : Nat × Nat) (s : VDState) :
    ((addDevice c sem wh s).1).displayList
      = s.displayList ++ [newDisplayName s.displayList] := rfl

lemma addDevice_entries (c : Nat) (sem : Bool) (wh : Nat × Nat) (s : VDState) :
    ((addDevice c sem wh s).1).diplayInfoList = s.diplayInfoList ++
      [{ width := wh.1, height := wh.2, devicenaam := newDisplayName s.displayList,
         primary := false }] := rfl

lemma addDevice_restoreNeeded (c : Nat) (sem : Bool) (wh : Nat × Nat) (s : VDState) :
    ((addDevice c sem wh s).1).restoreNeeded = s.restoreNeeded := rfl

lemma addDevice_savedConfig (c : Nat) (sem : Bool) (wh : Nat × Nat) (s : VDState) :
    ((addDevice c sem wh s).1).savedConfig = s.savedConfig := rfl

lemma addDevice_primaryName (c : Nat) (sem : Bool) (wh : Nat × Nat) (s : VDState) :
    ((addDevice c sem wh s).1).primaryName = s.primaryName := rfl

lemma rollback_nil (s : VDState) : rollback [] s = s := by
  cases s with
  | mk cat recs reg rn saved prim =>
    simp only [rollback, removeRecords, removeNames, removeEntries]
    rw [removeBy_nil_names, removeBy_nil_names, removeBy_nil_names]

lemma rollback_after_add (c : Nat) (sem : Bool) (wh : Nat × Nat)
    (created : List DeviceName) (s : VDState)
    (hrec : ∀ r ∈ s.virtualDisplayList, r.devicenaam ∈ s.displayList)
    (hcat : ∀ e ∈ s.diplayInfoList, e.devicenaam ∈ s.displayList) :
    rollback (created ++ [(addDevice c sem wh s).2]) (addDevice c sem wh s).1
      = rollback created s := by
  cases s with
  | mk cat recs reg rn saved prim =>
    have hfresh2 : DeviceName.virt (newSuffix reg) ∉ reg := newDisplayName_not_mem reg
    have e1 : removeBy (fun r : VIRTUALDISPLAY => r.devicenaam)
        (created ++ [DeviceName.virt (newSuffix reg)]) recs
        = removeBy (fun r : VIRTUALDISPLAY => r.devicenaam) created recs :=
      removeBy_extend _ created _ recs (fun x hx hEq => hfresh2 (hEq ▸ hrec x hx))
    have e2 : removeBy (fun n : DeviceName => n)
        (created ++ [DeviceName.virt (newSuffix reg)]) reg
        = removeBy (fun n : DeviceName => n) created reg :=
      removeBy_extend _ created _ reg (fun x hx hEq => hfresh2 (hEq ▸ hx))
    have e3 : removeBy (fun e : DISPLAYINFO => e.devicenaam)
        (created ++ [DeviceName.virt (newSuffix reg)]) cat
        = removeBy (fun e : DISPLAYINFO => e.devicenaam) created cat :=
      removeBy_extend _ created _ cat (fun x hx hEq => hfresh2 (hEq ▸ hcat x hx))
    have d1 : removeBy (fun r : VIRTUALDISPLAY => r.devicenaam)
        (created ++ [DeviceName.virt (newSuffix reg)])
        [{ clientId := c, devicenaam := DeviceName.virt (newSuffix reg),
           hDevice := newSuffix reg, singleExtendMode := sem }] = [] :=
      removeBy_singleton_drop _ _ _ (by simp)
    have d2 : removeBy (fun n : DeviceName => n)
        (created ++ [DeviceName.virt (newSuffix reg)])
        [DeviceName.virt (newSuffix reg)] = [] :=
      removeBy_singleton_drop _ _ _ (by simp)
    have d3 : removeBy (fun e : DISPLAYINFO => e.devicenaam)
        (created ++ [DeviceName.virt (newSuffix reg)])
        [{ width := wh.1, height := wh.2, devicenaam := DeviceName.virt (newSuffix reg),
           primary := false }] = [] :=
      removeBy_singleton_drop _ _ _ (by simp)
    simp only [rollback, addDevice, removeEntries, removeRecords, removeNames]
    rw [removeBy_append, removeBy_append, removeBy_append, d1, d2, d3, e1, e2, e3]
    simp

lemma createLoop_nil (c : Nat) (sem : Bool) (outcomes : List Bool)
    (created : List DeviceName) (s : VDState) :
    createLoop c sem [] outcomes created s = (true, s, created) := rfl

lemma createLoop_cons_ok (c : Nat) (sem : Bool) (wh : Nat × Nat)
    (rest : List (Nat × Nat)) (outcomes : List Bool) (created : List DeviceName)
    (s : VDState) (h : outcomes.headD false = true) :
    createLoop c sem (wh :: rest) outcomes created s
      = createLoop c sem rest outcomes.tail
          (created ++ [(addDevice c sem wh s).2]) (addDevice c sem wh s).1 := by
  have h2 : outcomes.head?.getD false = true := by simpa using h
  simp [createLoop, h2]

lemma createLoop_cons_fail (c : Nat) (sem : Bool) (wh : Nat × Nat)
    (rest : List (Nat × Nat)) (outcomes : List Bool) (created : List DeviceName)
    (s : VDState) (h : outcomes.headD false = false) :
    createLoop c sem (wh :: rest) outcomes created s
      = (false, rollback created s, created) := by
  have h2 : outcomes.head?.getD false = false := by simpa using h
  simp [createLoop, h2]

lemma createLoop_flags (c : Nat) (sem : Bool) :
    ∀ (plan : List (Nat × Nat)) (outcomes : List Bool) (created : List DeviceName)
      (s : VDState),
      ((createLoop c sem plan outcomes created s).2.1).restoreNeeded = s.restoreNeeded ∧
      ((createLoop c sem plan outcomes created s).2.1).savedConfig = s.savedConfig ∧
      ((createLoop c sem plan outcomes created s).2.1).primaryName = s.primaryName := by
  intro plan
  induction plan with
  | nil => intro outcomes created s; exact ⟨rfl, rfl, rfl⟩
  | cons wh rest ih =>
    intro outcomes created s
    cases h : outcomes.headD false with
    | true =>
      rw [createLoop_cons_ok c sem wh rest outcomes created s h]
      obtain ⟨h1, h2, h3⟩ := ih outcomes.tail
        (created ++ [(addDevice c sem wh s).2]) (addDevice c sem wh s).1
      exact ⟨by rw [h1]; rfl, by rw [h2]; rfl, by rw [h3]; rfl⟩
    | false =>
      rw [createLoop_cons_fail c sem wh rest outcomes created s h]
      exact ⟨rfl, rfl, rfl⟩

lemma createLoop_fail (c : Nat) (sem : Bool) :
    ∀ (plan : List (Nat × Nat)) (outcomes : List Bool) (created : List DeviceName)
      (s : VDState),
      (∀ r ∈ s.virtualDisplayList, r.devicenaam ∈ s.displayList) →
      (∀ e ∈ s.diplayInfoList, e.devicenaam ∈ s.displayList) →
      (createLoop c sem plan outcomes created s).1 = false →
      (createLoop c sem plan outcomes created s).2.1 = rollback created s := by
  intro plan
  induction plan with
  | nil =>
    intro outcomes created s _ _ hf
    rw [createLoop_nil] at hf
    exact Bool.noConfusion hf
  | cons wh rest ih =>
    intro outcomes created s hrec hcat hf
    cases h : outcomes.headD false with
    | false => rw [createLoop_cons_fail c sem wh rest outcomes created s h]
    | true =>
      rw [createLoop_cons_ok c sem wh rest outcomes created s h] at hf ⊢
      have hrec2 : ∀ r ∈ ((addDevice c sem wh s).1).virtualDisplayList,
          r.devicenaam ∈ ((addDevice c sem wh s).1).displayList := by
        intro r hr
        rw [addDevice_records] at hr
        rw [addDevice_names]
        rcases List.mem_append.mp hr with h1 | h1
        · exact List.mem_append.mpr (Or.inl (hrec r h1))
        · rcases List.mem_singleton.mp h1 with rfl
          exact List.mem_append.mpr (Or.inr (by simp))
      have hcat2 : ∀ e ∈ ((addDevice c sem wh s).1).diplayInfoList,
          e.devicenaam ∈ ((addDevice c sem wh s).1).displayList := by
        intro e he
        rw [addDevice_entries] at he
        rw [addDevice_names]
        rcases List.mem_append.mp he with h1 | h1
        · exact List.mem_append.mpr (Or.inl (hcat e h1))
        · rcases List.mem_singleton.mp h1 with rfl
          exact List.mem_append.mpr (Or.inr (by simp))
      rw [ih outcomes.tail _ _ hrec2 hcat2 hf]
      exact rollback_after_add c sem wh created s hrec hcat

lemma drop_tail_bool : ∀ (l : List Bool) (i : Nat), l.tail.drop i = l.drop (i + 1) := by
  intro l i
  cases l <;> simp

lemma createLoop_bad_outcome (c : Nat) (sem : Bool) :
    ∀ (plan : List (Nat × Nat)) (outcomes : List Bool) (created : List DeviceName)
      (s : VDState),
      (∃ i, i < plan.length ∧ (outcomes.drop i).headD false = false) →
      (createLoop c sem plan outcomes created s).1 = false := by
  intro plan
  induction plan with
  | nil =>
    intro outcomes created s h
    obtain ⟨i, hi, _⟩ := h
    simp at hi
  | cons wh rest ih =>
    intro outcomes created s h
    cases h0 : outcomes.headD false with
    | false => rw [createLoop_cons_fail c sem wh rest outcomes created s h0]
    | true =>
      rw [createLoop_cons_ok c sem wh rest outcomes created s h0]
      obtain ⟨i, hi, hbad⟩ := h
      cases i with
      | zero =>
        rw [List.drop_zero] at hbad
        rw [hbad] at h0
        exact Bool.noConfusion h0
      | succ i2 =>
        have hi2 : i2 < rest.length := by
          simp only [List.length_cons] at hi
          omega
        apply ih
        refine ⟨i2, hi2, ?_⟩
        rw [drop_tail_bool]
        exact hbad

lemma createLoop_ok_shape (c : Nat) (sem : Bool) :
    ∀ (plan : List (Nat × Nat)) (outcomes : List Bool) (created : List DeviceName)
      (s : VDState),
      (createLoop c sem plan outcomes created s).1 = true →
      ∃ (newRecs : List VIRTUALDISPLAY) (newEntries : List DISPLAYINFO)
        (newNames : List DeviceName),
        ((createLoop c sem plan outcomes created s).2.1).virtualDisplayList
          = s.virtualDisplayList ++ newRecs ∧
        ((createLoop c sem plan outcomes created s).2.1).displayList
          = s.displayList ++ newNames ∧
        ((createLoop c sem plan outcomes created s).2.1).diplayInfoList
          = s.diplayInfoList ++ newEntries ∧
        (createLoop c sem plan outcomes created s).2.2 = created ++ newNames ∧
        newRecs.map (fun r => r.devicenaam) = newNames ∧
        newEntries.map (fun e => e.devicenaam) = newNames ∧
        (∀ r ∈ newRecs, r.clientId = c ∧ r.singleExtendMode = sem) ∧
        (∀ e ∈ newEntries, e.primary = false) ∧
        newNames.length = plan.length ∧
        (∀ x ∈ newNames, x ∉ s.displayList) ∧
        newNames.Nodup := by
  intro plan
  induction plan with
  | nil =>
    intro outcomes created s _
    refine ⟨[], [], [], ?_, ?_, ?_, ?_, rfl, rfl, ?_, ?_, rfl, ?_, List.nodup_nil⟩
    · rw [createLoop_nil]; simp
    · rw [createLoop_nil]; simp
    · rw [createLoop_nil]; simp
    · rw [createLoop_nil]; simp
    · intro r hr; exact absurd hr (List.not_mem_nil r)
    · intro e he; exact absurd he (List.not_mem_nil e)
    · intro x hx; exact absurd hx (List.not_mem_nil x)
  | cons wh rest ih =>
    intro outcomes created s hok
    cases h0 : outcomes.headD false with
    | false =>
      rw [createLoop_cons_fail c sem wh rest outcomes created s h0] at hok
      exact Bool.noConfusion hok
    | true =>
      rw [createLoop_cons_ok c sem wh rest outcomes created s h0] at hok ⊢
      obtain ⟨R, E, N, hR, hN, hE, hcr, hmapR, hmapE, hRprops, hEprops, hlen, hfreshN,
        hnodupN⟩ := ih outcomes.tail (created ++ [(addDevice c sem wh s).2])
          (addDevice c sem wh s).1 hok
      have hnm : (addDevice c sem wh s).2 = newDisplayName s.displayList := rfl
      refine ⟨{ clientId := c,
                devicenaam := newDisplayName s.displayList,
                hDevice := newSuffix s.displayList,
                singleExtendMode := sem } :: R,
        { width := wh.1,
          height := wh.2,
          devicenaam := newDisplayName s.displayList,
          primary := false } :: E,
        newDisplayName s.displayList :: N, ?_, ?_, ?_, ?_, ?_, ?_, ?_, ?_, ?_, ?_, ?_⟩
      · rw [hR, addDevice_records, List.append_assoc]
        rfl
      · rw [hN, addDevice_names, List.append_assoc]
        rfl
      · rw [hE, addDevice_entries, List.append_assoc]
        rfl
      · rw [hcr, hnm, List.append_assoc]
        rfl
      · simp only [List.map_cons, hmapR]
      · simp only [List.map_cons, hmapE]
      · intro r hr
        rcases List.mem_cons.mp hr with rfl | h2
        · exact ⟨rfl, rfl⟩
        · exact hRprops r h2
      · intro e he
        rcases List.mem_cons.mp he with rfl | h2
        · rfl
        · exact hEprops e h2
      · simp only [List.length_cons, hlen, List.length_cons]
      · intro x hx
        rcases List.mem_cons.mp hx with rfl | h2
        · exact newDisplayName_not_mem s.displayList
        · have h3 := hfreshN x h2
          rw [addDevice_names] at h3
          intro h4
          exact h3 (List.mem_append.mpr (Or.inl h4))
      · rw [List.nodup_cons]
        refine ⟨?_, hnodupN⟩
        intro hmem
        have h3 := hfreshN (newDisplayName s.displayList) hmem
        rw [addDevice_names] at h3
        exact h3 (List.mem_append.mpr (Or.inr (by simp)))

lemma createLoop_reg_nodup (c : Nat) (sem : Bool) :
    ∀ (plan : List (Nat × Nat)) (outcomes : List Bool) (created : List DeviceName)
      (s : VDState), s.displayList.Nodup →
      ((createLoop c sem plan outcomes created s).2.1).displayList.Nodup := by
  intro plan
  induction plan with
  | nil => intro outcomes created s h; exact h
  | cons wh rest ih =>
    intro outcomes created s h
    cases h0 : outcomes.headD false with
    | false =>
      rw [createLoop_cons_fail c sem wh rest outcomes created s h0]
      exact (removeBy_sublist (fun n : DeviceName => n) created s.displayList).nodup h
    | true =>
      rw [createLoop_cons_ok c sem wh rest outcomes created s h0]
      apply ih
      rw [addDevice_names, List.nodup_append]
      refine ⟨h, List.nodup_singleton _, ?_⟩
      intro a ha hb
      rw [List.mem_singleton] at hb
      subst hb
      exact newDisplayName_not_mem s.displayList ha

lemma ass_records (mode : DisplayMode) (pre : List DISPLAYINFO) (st : VDState)
    (created : List DeviceName) :
    (attachSuccessState mode pre st created).virtualDisplayList
      = st.virtualDisplayList := by
  simp only [attachSuccessState]
  split_ifs <;> rfl

lemma ass_names (mode : DisplayMode) (pre : List DISPLAYINFO) (st : VDState)
    (created : List DeviceName) :
    (attachSuccessState mode pre st created).displayList = st.displayList := by
  simp only [attachSuccessState]
  split_ifs <;> rfl

lemma ass_entries (mode : DisplayMode) (pre : List DISPLAYINFO) (st : VDState)
    (created : List DeviceName) :
    (attachSuccessState mode pre st created).diplayInfoList = st.diplayInfoList := by
  simp only [attachSuccessState]
  split_ifs <;> rfl

lemma ass_restoreNeeded (mode : DisplayMode) (pre : List DISPLAYINFO) (st : VDState)
    (created : List DeviceName) :
    (attachSuccessState mode pre st created).restoreNeeded
      = (if created ≠ [] ∧ st.restoreNeeded = false then true else st.restoreNeeded) := by
  simp only [attachSuccessState]
  split_ifs <;> rfl

lemma ass_savedConfig (mode : DisplayMode) (pre : List DISPLAYINFO) (st : VDState)
    (created : List DeviceName) :
    (attachSuccessState mode pre st created).savedConfig
      = (if created ≠ [] ∧ st.restoreNeeded = false then pre else st.savedConfig) := by
  simp only [attachSuccessState]
  split_ifs <;> rfl

lemma ass_restoreNeeded_true (mode : DisplayMode) (pre : List DISPLAYINFO) (st : VDState)
    (created : List DeviceName) (h1 : created ≠ []) (h2 : st.restoreNeeded = false) :
    (attachSuccessState mode pre st created).restoreNeeded = true := by
  rw [ass_restoreNeeded, if_pos ⟨h1, h2⟩]

lemma ass_savedConfig_pre (mode : DisplayMode) (pre : List DISPLAYINFO) (st : VDState)
    (created : List DeviceName) (h1 : created ≠ []) (h2 : st.restoreNeeded = false) :
    (attachSuccessState mode pre st created).savedConfig = pre := by
  rw [ass_savedConfig, if_pos ⟨h1, h2⟩]

lemma ass_noSnapshot (mode : DisplayMode) (pre : List DISPLAYINFO) (st : VDState)
    (h1 : st.restoreNeeded = false) :
    (attachSuccessState mode pre st []).restoreNeeded = false := by
  rw [ass_restoreNeeded, if_neg (fun hA => hA.1 rfl)]
  exact h1

lemma ass_primaryName_other (mode : DisplayMode) (pre : List DISPLAYINFO) (st : VDState)
    (created : List DeviceName) (h : mode ≠ DisplayMode.dmExtendOnly) :
    (attachSuccessState mode pre st created).primaryName = st.primaryName := by
  simp only [attachSuccessState]
  rw [if_neg h]
  split_ifs <;> rfl

lemma attach_noDriver (mode : DisplayMode) (rm : List ((Nat × Nat) × (Nat × Nat)))
    (sem : Bool) (c : Nat) (outcomes : List Bool) (s : VDState)
    (hm : mode ≠ DisplayMode.dmDisplay) :
    attachDisplay mode rm sem c false outcomes s = (true, s, []) := by
  cases mode with
  | dmDisplay => exact absurd rfl hm
  | dmVirtual => rfl
  | dmExtend => rfl
  | dmExtendOnly => rfl

lemma attach_driver (mode : DisplayMode) (rm : List ((Nat × Nat) × (Nat × Nat)))
    (sem : Bool) (c : Nat) (outcomes : List Bool) (s : VDState)
    (hm : mode ≠ DisplayMode.dmDisplay) :
    attachDisplay mode rm sem c true outcomes s = attachCore mode rm sem c outcomes s := by
  cases mode with
  | dmDisplay => exact absurd rfl hm
  | dmVirtual => rfl
  | dmExtend => rfl
  | dmExtendOnly => rfl

lemma attachCore_fail (mode : DisplayMode) (rm : List ((Nat × Nat) × (Nat × Nat)))
    (sem : Bool) (c : Nat) (outcomes : List Bool) (s : VDState)
    (h : (loopOf mode rm sem c outcomes s).1 = false) :
    attachCore mode rm sem c outcomes s
      = (false, (loopOf mode rm sem c outcomes s).2.1,
          (loopOf mode rm sem c outcomes s).2.2) := by
  simp only [attachCore]
  rw [h]
  simp

lemma attachCore_ok (mode : DisplayMode) (rm : List ((Nat × Nat) × (Nat × Nat)))
    (sem : Bool) (c : Nat) (outcomes : List Bool) (s : VDState)
    (h : (loopOf mode rm sem c outcomes s).1 = true) :
    attachCore mode rm sem c outcomes s
      = (true,
         attachSuccessState mode (detachClient c s).diplayInfoList
           (loopOf mode rm sem c outcomes s).2.1 (loopOf mode rm sem c outcomes s).2.2,
         (loopOf mode rm sem c outcomes s).2.2) := by
  simp only [attachCore]
  rw [h]
  simp

lemma restore_noRestore (s : VDState) (h : s.restoreNeeded = false) :
    restoreConfig s = s := by
  simp [restoreConfig, h]

lemma restore_catalog (s : VDState) (h : s.restoreNeeded = true) :
    (restoreConfig s).diplayInfoList = s.savedConfig := by
  simp [restoreConfig, h]

lemma restore_records (s : VDState) :
    (restoreConfig s).virtualDisplayList = s.virtualDisplayList := by
  unfold restoreConfig
  split_ifs <;> rfl

lemma restore_names (s : VDState) :
    (restoreConfig s).displayList = s.displayList := by
  unfold restoreConfig
  split_ifs <;> rfl

lemma restore_primaryName (s : VDState) :
    (restoreConfig s).primaryName = s.primaryName := by
  unfold restoreConfig
  split_ifs <;> rfl

lemma disconnect_true_eq (c : Nat) (s : VDState) :
    disconnectDisplay c true s = restoreConfig (detachClient c s) := by
  simp [disconnectDisplay]

lemma detach_reg_nodup (c : Nat) (s : VDState) (h : s.displayList.Nodup) :
    (detachClient c s).displayList.Nodup := by
  show (removeBy (fun n : DeviceName => n)
    ((ownedBy c s.virtualDisplayList).map (fun r => r.devicenaam)) s.displayList).Nodup
  exact (removeBy_sublist (fun n : DeviceName => n) _ s.displayList).nodup h

lemma attachCore_names (mode : DisplayMode) (rm : List ((Nat × Nat) × (Nat × Nat)))
    (sem : Bool) (c : Nat) (outcomes : List Bool) (s : VDState) :
    ((attachCore mode rm sem c outcomes s).2.1).displayList
      = ((loopOf mode rm sem c outcomes s).2.1).displayList := by
  simp only [attachCore]
  split_ifs with h1
  · exact ass_names mode _ _ _
  · rfl

lemma disconnect_names (c : Nat) (last : Bool) (s : VDState) :
    (disconnectDisplay c last s).displayList = (detachClient c s).displayList := by
  simp only [disconnectDisplay]
  split_ifs with h1
  · exact restore_names _
  · rfl

lemma attach_reg_nodup (mode : DisplayMode) (rm : List ((Nat × Nat) × (Nat × Nat)))
    (sem : Bool) (c : Nat) (driver : Bool) (outcomes : List Bool) (s : VDState)
    (h : s.displayList.Nodup) :
    ((attachDisplay mode rm sem c driver outcomes s).2.1).displayList.Nodup := by
  cases mode with
  | dmDisplay => exact h
  | dmVirtual =>
    cases driver with
    | false => exact h
    | true =>
      rw [show (attachDisplay DisplayMode.dmVirtual rm sem c true outcomes s)
          = attachCore DisplayMode.dmVirtual rm sem c outcomes s from rfl]
      rw [attachCore_names]
      unfold loopOf
      exact createLoop_reg_nodup c _ _ outcomes [] (detachClient c s)
        (detach_reg_nodup c s h)
  | dmExtend =>
    cases driver with
    | false => exact h
    | true =>
      rw [show (attachDisplay DisplayMode.dmExtend rm sem c true outcomes s)
          = attachCore DisplayMode.dmExtend rm sem c outcomes s from rfl]
      rw [attachCore_names]
      unfold loopOf
      exact createLoop_reg_nodup c _ _ outcomes [] (detachClient c s)
        (detach_reg_nodup c s h)
  | dmExtendOnly =>
    cases driver with
    | false => exact h
    | true =>
      rw [show (attachDisplay DisplayMode.dmExtendOnly rm sem c true outcomes s)
          = attachCore DisplayMode.dmExtendOnly rm sem c outcomes s from rfl]
      rw [attachCore_names]
      unfold loopOf
      exact createLoop_reg_nodup c _ _ outcomes [] (detachClient c s)
        (detach_reg_nodup c s h)

lemma disconnect_reg_nodup (c : Nat) (last : Bool) (s : VDState)
    (h : s.displayList.Nodup) :
    (disconnectDisplay c last s).displayList.Nodup := by
  rw [disconnect_names]
  exact detach_reg_nodup c s h

lemma applyOp_reg_nodup (s : VDState) (op : VDOp) (h : s.displayList.Nodup) :
    (applyOp s op).displayList.Nodup := by
  cases op with
  | attach mode rm sem c driver outcomes => exact attach_reg_nodup mode rm sem c driver outcomes s h
  | disconnect c last => exact disconnect_reg_nodup c last s h

lemma runOps_reg_nodup :
    ∀ (ops : List VDOp) (s : VDState), s.displayList.Nodup →
      (runOps ops s).displayList.Nodup := by
  intro ops
  induction ops with
  | nil => intro s h; exact h
  | cons op rest ih =>
    intro s h
    exact ih (applyOp s op) (applyOp_reg_nodup s op h)

/-- Claim C2: when any creation step of a device-creating attach for a
fresh client fails (its readiness outcome is false within the planned
sequence), the call reports the resource error (false) and the state -
prior records, catalog and name registry - is exactly the state before
the call. -/
theorem c2_attach_failure_rolls_back (mode : DisplayMode)
    (rm : List ((Nat × Nat) × (Nat × Nat))) (sem : Bool) (c : Nat)
    (outcomes : List Bool) (s : VDState)
    (hmode : mode ≠ DisplayMode.dmDisplay)
    (hrec : ∀ r ∈ s.virtualDisplayList, r.devicenaam ∈ s.displayList)
    (hcat : ∀ e ∈ s.diplayInfoList, e.devicenaam ∈ s.displayList)
    (hfresh : ∀ r ∈ s.virtualDisplayList, r.clientId ≠ c)
    (hbad : ∃ i, i < (devicesNeeded mode rm).length ∧
      (outcomes.drop i).headD false = false) :
    (attachDisplay mode rm sem c true outcomes s).1 = false ∧
    (attachDisplay mode rm sem c true outcomes s).2.1 = s := by
  rw [attach_driver mode rm sem c outcomes s hmode]
  have hdet : detachClient c s = s := detach_no_records c s hfresh
  have hfail : (createLoop c (if mode = DisplayMode.dmVirtual then false else sem)
      (devicesNeeded mode rm) outcomes [] s).1 = false :=
    createLoop_bad_outcome c _ (devicesNeeded mode rm) outcomes [] s hbad
  have hloop : (loopOf mode rm sem c outcomes s).1 = false := by
    unfold loopOf
    rw [hdet]
    exact hfail
  have hstate : (loopOf mode rm sem c outcomes s).2.1 = s := by
    unfold loopOf
    rw [hdet]
    rw [createLoop_fail c _ (devicesNeeded mode rm) outcomes [] s hrec hcat hfail]
    exact rollback_nil s
  rw [attachCore_fail mode rm sem c outcomes s hloop]
  exact ⟨rfl, hstate⟩

/-- Claim C4: a clientId owns at most one active device set - a
successful device-creating attach leaves the client owning exactly the
devices created by that call (earlier records of the same client are
torn down first), and the records of every other client are
untouched. -/
theorem c4_latest_attach_owns_exact_set (mode : DisplayMode)
    (rm : List ((Nat × Nat) × (Nat × Nat))) (sem : Bool) (c : Nat)
    (outcomes : List Bool) (s : VDState)
    (hmode : mode ≠ DisplayMode.dmDisplay)
    (hok : (attachDisplay mode rm sem c true outcomes s).1 = true) :
    (ownedBy c ((attachDisplay mode rm sem c true outcomes s).2.1).virtualDisplayList).map
        (fun r => r.devicenaam)
      = (attachDisplay mode rm sem c true outcomes s).2.2 ∧
    ((attachDisplay mode rm sem c true outcomes s).2.2).length
      = (devicesNeeded mode rm).length ∧
    (∀ d, d ≠ c →
      ownedBy d ((attachDisplay mode rm sem c true outcomes s).2.1).virtualDisplayList
        = ownedBy d s.virtualDisplayList) := by
  rw [attach_driver mode rm sem c outcomes s hmode] at hok ⊢
  by_cases hl : (loopOf mode rm sem c outcomes s).1 = true
  case neg =>
    have hl2 : (loopOf mode rm sem c outcomes s).1 = false := by
      cases hb : (loopOf mode rm sem c outcomes s).1
      · rfl
      · exact absurd hb hl
    rw [attachCore_fail mode rm sem c outcomes s hl2] at hok
    exact Bool.noConfusion hok
  case pos =>
    rw [attachCore_ok mode rm sem c outcomes s hl]
    unfold loopOf
    obtain ⟨R, E, N, hR, hN, hE, hcr, hmapR, hmapE, hRprops, hEprops, hlen, hfreshN,
      hnodupN⟩ := createLoop_ok_shape c
        (if mode = DisplayMode.dmVirtual then false else sem)
        (devicesNeeded mode rm) outcomes [] (detachClient c s) hl
    refine ⟨?_, ?_, ?_⟩
    · rw [ass_records, hR, detach_records, ownedBy_append, ownedBy_dropOwnedBy,
        ownedBy_eq_self c R (fun r hr => (hRprops r hr).1), List.nil_append, hmapR, hcr,
        List.nil_append]
    · rw [hcr, List.nil_append, hlen]
    · intro d hd
      rw [ass_records, hR, detach_records, ownedBy_append,
        ownedBy_dropOwnedBy_other c d hd s.virtualDisplayList,
        ownedBy_eq_nil d R (fun r hr h2 => hd (h2.symm.trans (hRprops r hr).1)),
        List.append_nil]

/-- Claim C3: a successful virtual-mode attach leaves exactly one
virtual display record owned by the client; its singleExtendMode flag
is forced off, the primary-display designation does not name it, and
every catalog entry bearing its device name is not primary. -/
theorem c3_virtual_one_record_never_primary (rm : List ((Nat × Nat) × (Nat × Nat)))
    (sem : Bool) (c : Nat) (outcomes : List Bool) (s : VDState)
    (hcat : ∀ e ∈ s.diplayInfoList, e.devicenaam ∈ s.displayList)
    (hprim : ∀ p, s.primaryName = some p → p ∈ s.displayList)
    (hok : (attachDisplay DisplayMode.dmVirtual rm sem c true outcomes s).1 = true) :
    ∃ r : VIRTUALDISPLAY,
      ownedBy c ((attachDisplay DisplayMode.dmVirtual rm sem c true
          outcomes s).2.1).virtualDisplayList = [r] ∧
      r.clientId = c ∧
      r.singleExtendMode = false ∧
      ((attachDisplay DisplayMode.dmVirtual rm sem c true outcomes s).2.1).primaryName
        ≠ some r.devicenaam ∧
      (∀ e ∈ ((attachDisplay DisplayMode.dmVirtual rm sem c true
          outcomes s).2.1).diplayInfoList,
        e.devicenaam = r.devicenaam → e.primary = false) := by
  have hmode : DisplayMode.dmVirtual ≠ DisplayMode.dmDisplay :=
    fun h => DisplayMode.noConfusion h
  rw [attach_driver DisplayMode.dmVirtual rm sem c outcomes s hmode] at hok ⊢
  by_cases hl : (loopOf DisplayMode.dmVirtual rm sem c outcomes s).1 = true
  case neg =>
    have hl2 : (loopOf DisplayMode.dmVirtual rm sem c outcomes s).1 = false := by
      cases hb : (loopOf DisplayMode.dmVirtual rm sem c outcomes s).1
      · rfl
      · exact absurd hb hl
    rw [attachCore_fail DisplayMode.dmVirtual rm sem c outcomes s hl2] at hok
    exact Bool.noConfusion hok
  case pos =>
    rw [attachCore_ok DisplayMode.dmVirtual rm sem c outcomes s hl]
    unfold loopOf
    obtain ⟨R, E, N, hR, hN, hE, hcr, hmapR, hmapE, hRprops, hEprops, hlen, hfreshN,
      hnodupN⟩ := createLoop_ok_shape c
        (if DisplayMode.dmVirtual = DisplayMode.dmVirtual then false else sem)
        (devicesNeeded DisplayMode.dmVirtual rm) outcomes [] (detachClient c s) hl
    have hlen1 : R.length = 1 := by
      have hNlen : N.length = 1 := by
        rw [hlen]
        rfl
      have hhm : R.length = N.length := by
        rw [← hmapR, List.length_map]
      rw [hhm, hNlen]
    obtain ⟨r, hRr⟩ := List.length_eq_one.mp hlen1
    have hNval : N = [r.devicenaam] := by
      rw [← hmapR, hRr]
      rfl
    have hrmem : r ∈ R := by
      rw [hRr]
      exact List.mem_cons_self r []
    refine ⟨r, ?_, (hRprops r hrmem).1, ?_, ?_, ?_⟩
    · rw [ass_records, hR, detach_records, ownedBy_append, ownedBy_dropOwnedBy,
        ownedBy_eq_self c R (fun x hx => (hRprops x hx).1), List.nil_append, hRr]
    · have hs := (hRprops r hrmem).2
      simpa using hs
    · rw [ass_primaryName_other DisplayMode.dmVirtual _ _ _
        (fun h => DisplayMode.noConfusion h)]
      have hflags := createLoop_flags c
        (if DisplayMode.dmVirtual = DisplayMode.dmVirtual then false else sem)
        (devicesNeeded DisplayMode.dmVirtual rm) outcomes [] (detachClient c s)
      rw [hflags.2.2]
      have hfreshr : r.devicenaam ∉ (detachClient c s).displayList := by
        apply hfreshN
        rw [hNval]
        exact List.mem_cons_self _ []
      cases hp2 : (detachClient c s).primaryName with
      | none => exact fun h => Option.noConfusion h
      | some p =>
        intro hEq
        obtain rfl : p = r.devicenaam := Option.some.inj hEq
        exact hfreshr (detach_primReg c s hprim r.devicenaam hp2)
    · intro e he hname
      rw [ass_entries, hE] at he
      rcases List.mem_append.mp he with h1 | h1
      · exfalso
        have h2 := detach_catNames c s hcat e h1
        rw [hname] at h2
        have hfreshr : r.devicenaam ∉ (detachClient c s).displayList := by
          apply hfreshN
          rw [hNval]
          exact List.mem_cons_self _ []
        exact hfreshr h2
      · exact hEprops e h1

/-- Claim C1: from a state with no virtual devices and no pending
restoration, a device-creating attach for one client followed by
disconnectDisplay with lastViewer leaves the display catalog exactly as
it was before the attach - whatever the driver availability and the
per-device creation outcomes - and the catalog is never left empty. -/
theorem c1_attach_then_disconnect_restores (mode : DisplayMode)
    (rm : List ((Nat × Nat) × (Nat × Nat))) (sem : Bool) (c : Nat) (driver : Bool)
    (outcomes : List Bool) (s : VDState)
    (hmode : mode ≠ DisplayMode.dmDisplay)
    (hempty : s.virtualDisplayList = [])
    (hrn : s.restoreNeeded = false)
    (hcat : ∀ e ∈ s.diplayInfoList, e.devicenaam ∈ s.displayList)
    (hne : s.diplayInfoList ≠ []) :
    (disconnectDisplay c true
        ((attachDisplay mode rm sem c driver outcomes s).2.1)).diplayInfoList
      = s.diplayInfoList ∧
    (disconnectDisplay c true
        ((attachDisplay mode rm sem c driver outcomes s).2.1)).diplayInfoList ≠ [] := by
  have hnoc : ∀ r ∈ s.virtualDisplayList, r.clientId ≠ c := by
    rw [hempty]
    intro r hr
    exact absurd hr (List.not_mem_nil r)
  have hrec : ∀ r ∈ s.virtualDisplayList, r.devicenaam ∈ s.displayList := by
    rw [hempty]
    intro r hr
    exact absurd hr (List.not_mem_nil r)
  have hdet : detachClient c s = s := detach_no_records c s hnoc
  have hbase : (disconnectDisplay c true s).diplayInfoList = s.diplayInfoList := by
    rw [disconnect_true_eq, hdet, restore_noRestore s hrn]
  have hmain : (disconnectDisplay c true
      ((attachDisplay mode rm sem c driver outcomes s).2.1)).diplayInfoList
      = s.diplayInfoList := by
    cases driver with
    | false =>
      rw [attach_noDriver mode rm sem c outcomes s hmode]
      exact hbase
    | true =>
      rw [attach_driver mode rm sem c outcomes s hmode]
      by_cases hl : (loopOf mode rm sem c outcomes s).1 = true
      case neg =>
        have hl2 : (loopOf mode rm sem c outcomes s).1 = false := by
          cases hb : (loopOf mode rm sem c outcomes s).1
          · rfl
          · exact absurd hb hl
        have hl3 : (createLoop c (if mode = DisplayMode.dmVirtual then false else sem)
            (devicesNeeded mode rm) outcomes [] s).1 = false := by
          unfold loopOf at hl2
          rw [hdet] at hl2
          exact hl2
        have hstate : (loopOf mode rm sem c outcomes s).2.1 = s := by
          unfold loopOf
          rw [hdet]
          rw [createLoop_fail c _ (devicesNeeded mode rm) outcomes [] s hrec hcat hl3]
          exact rollback_nil s
        rw [attachCore_fail mode rm sem c outcomes s hl2, hstate]
        exact hbase
      case pos =>
        rw [attachCore_ok mode rm sem c outcomes s hl]
        unfold loopOf at hl ⊢
        rw [hdet] at hl ⊢
        obtain ⟨R, E, N, hR, hN, hE, hcr, hmapR, hmapE, hRprops, hEprops, hlen, hfreshN,
          hnodupN⟩ := createLoop_ok_shape c
            (if mode = DisplayMode.dmVirtual then false else sem)
            (devicesNeeded mode rm) outcomes [] s hl
        have hflags := createLoop_flags c
          (if mode = DisplayMode.dmVirtual then false else sem)
          (devicesNeeded mode rm) outcomes [] s
        cases N with
        | nil =>
          -- nothing was created: no snapshot is taken and the state is s
          have hRnil : R = [] := by
            have := hmapR
            rwa [List.map_eq_nil_iff] at this
          have hEnil : E = [] := by
            have := hmapE
            rwa [List.map_eq_nil_iff] at this
          have hcr2 : (createLoop c (if mode = DisplayMode.dmVirtual then false else sem)
              (devicesNeeded mode rm) outcomes [] s).2.2 = [] := by
            rw [hcr]
            rfl
          rw [hcr2]
          set L := (createLoop c (if mode = DisplayMode.dmVirtual then false else sem)
              (devicesNeeded mode rm) outcomes [] s).2.1
          have hTrn : (attachSuccessState mode s.diplayInfoList L []).restoreNeeded
              = false := by
            apply ass_noSnapshot
            rw [hflags.1]
            exact hrn
          have hTrec : (attachSuccessState mode s.diplayInfoList L
              []).virtualDisplayList = [] := by
            rw [ass_records, hR, hRnil, hempty]
            rfl
          have hTent : (attachSuccessState mode s.diplayInfoList L
              []).diplayInfoList = s.diplayInfoList := by
            rw [ass_entries, hE, hEnil, List.append_nil]
          have hdet2 : detachClient c
              (attachSuccessState mode s.diplayInfoList L []) =
              attachSuccessState mode s.diplayInfoList L [] := by
            apply detach_no_records
            rw [hTrec]
            intro r hr
            exact absurd hr (List.not_mem_nil r)
          rw [disconnect_true_eq, hdet2, restore_noRestore _ hTrn]
          exact hTent
        | cons nm N2 =>
          -- devices were created: the pre-attach catalog was saved and restore fires
          have hcrne : (createLoop c (if mode = DisplayMode.dmVirtual then false else sem)
              (devicesNeeded mode rm) outcomes [] s).2.2 ≠ [] := by
            rw [hcr]
            simp
          have hLrn : ((createLoop c (if mode = DisplayMode.dmVirtual then false else sem)
              (devicesNeeded mode rm) outcomes [] s).2.1).restoreNeeded = false := by
            rw [hflags.1]
            exact hrn
          have hTrn := ass_restoreNeeded_true mode s.diplayInfoList _ _ hcrne hLrn
          have hTsaved := ass_savedConfig_pre mode s.diplayInfoList _ _ hcrne hLrn
          rw [disconnect_true_eq, restore_catalog _ (by
            rw [detach_restoreNeeded]
            exact hTrn), detach_savedConfig]
          exact hTsaved
  refine ⟨hmain, ?_⟩
  rw [hmain]
  exact hne

/-- A concrete state with one client (id 1) attached: its virtual
device is recorded, registered and in the catalog, and the pre-attach
real configuration is saved for restoration. -/
def sC5 : VDState :=
  { diplayInfoList :=
      [{ width := 1920, height := 1080, devicenaam := DeviceName.real "DISPLAY1",
         primary := true },
       { width := 800, height := 600, devicenaam := DeviceName.virt 0,
         primary := false }],
    virtualDisplayList :=
      [{ clientId := 1, devicenaam := DeviceName.virt 0, hDevice := 0,
         singleExtendMode := false }],
    displayList := [DeviceName.real "DISPLAY1", DeviceName.virt 0],
    restoreNeeded := true,
    savedConfig :=
      [{ width := 1920, height := 1080, devicenaam := DeviceName.real "DISPLAY1",
         primary := true }],
    primaryName := some (DeviceName.real "DISPLAY1") }

/-- Claim C5 counterexample: client 99 owns no records in sC5, yet
disconnectDisplay(99, lastViewer = true) mutates the display catalog -
the lastViewer flag triggers the pending restoration even though the
client is unknown, so the call is not a no-op as claimed. -/
theorem c5_counterexample :
    (∀ r ∈ sC5.virtualDisplayList, r.clientId ≠ 99) ∧
    (disconnectDisplay 99 true sC5).diplayInfoList ≠ sC5.diplayInfoList := by
  decide

/-- Claim C5 as amended: for a clientId owning no records, the
registry-level detach is a complete no-op, and disconnectDisplay never
errs, never mutates any client records, the name registry or the
primary designation; the catalog too is untouched except when the call
triggers a pending restoration (lastViewer true, or no virtual devices
remaining, while a snapshot is pending). -/
theorem c5_unknown_disconnect_noop (c : Nat) (last : Bool) (s : VDState)
    (h : ∀ r ∈ s.virtualDisplayList, r.clientId ≠ c) :
    detachClient c s = s ∧
    (disconnectDisplay c last s).virtualDisplayList = s.virtualDisplayList ∧
    (disconnectDisplay c last s).displayList = s.displayList ∧
    (disconnectDisplay c last s).primaryName = s.primaryName ∧
    (s.restoreNeeded = false → disconnectDisplay c last s = s) ∧
    (last = false → s.virtualDisplayList ≠ [] → disconnectDisplay c last s = s) := by
  have hdet := detach_no_records c s h
  have heq : disconnectDisplay c last s
      = (if last = true ∨ s.virtualDisplayList = [] then restoreConfig s else s) := by
    simp only [disconnectDisplay]
    rw [hdet]
  refine ⟨hdet, ?_, ?_, ?_, ?_, ?_⟩
  · rw [heq]
    split_ifs with h1
    · exact restore_records s
    · rfl
  · rw [heq]
    split_ifs with h1
    · exact restore_names s
    · rfl
  · rw [heq]
    split_ifs with h1
    · exact restore_primaryName s
    · rfl
  · intro hrn
    rw [heq]
    split_ifs with h1
    · exact restore_noRestore s hrn
    · rfl
  · intro hlast hvne
    rw [heq, hlast]
    rw [if_neg]
    intro hor
    rcases hor with h1 | h1
    · exact Bool.noConfusion h1
    · exact hvne h1

lemma setIdx_same (f : Nat → Nat) (i v : Nat) : setIdx f i v i = v := by
  simp [setIdx]

lemma setIdx_other (f : Nat → Nat) (i v j : Nat) (h : j ≠ i) : setIdx f i v j = f j := by
  simp [setIdx, h]

lemma publishList_spec :
    ∀ (l : List (Nat × Nat)) (p : SUPPORTEDMONITORS), p.counter ≤ 200 →
      (publishList l p).counter = min (p.counter + l.length) 200 ∧
      (∀ i, i < p.counter →
        (publishList l p).w i = p.w i ∧ (publishList l p).h i = p.h i) ∧
      (∀ j, p.counter + j < (publishList l p).counter →
        (publishList l p).w (p.counter + j) = (l.getD j (0, 0)).1 ∧
        (publishList l p).h (p.counter + j) = (l.getD j (0, 0)).2) := by
  intro l
  induction l with
  | nil =>
    intro p hp
    refine ⟨?_, fun i _ => ⟨rfl, rfl⟩, ?_⟩
    · show p.counter = min (p.counter + 0) 200
      rw [Nat.add_zero, Nat.min_eq_left hp]
    · intro j hj
      exfalso
      have hj2 : p.counter + j < p.counter := hj
      omega
  | cons wh rest ih =>
    intro p hp
    by_cases hc : p.counter < 200
    · have hcnt : (publishStep p wh).counter = p.counter + 1 := by
        simp [publishStep, hc]
      have hwv : ∀ i, (publishStep p wh).w i = setIdx p.w p.counter wh.1 i := by
        intro i
        simp [publishStep, hc]
      have hhv : ∀ i, (publishStep p wh).h i = setIdx p.h p.counter wh.2 i := by
        intro i
        simp [publishStep, hc]
      have hstep : publishList (wh :: rest) p = publishList rest (publishStep p wh) := rfl
      obtain ⟨ih1, ih2, ih3⟩ := ih (publishStep p wh) (by rw [hcnt]; omega)
      rw [hcnt] at ih1 ih2 ih3
      refine ⟨?_, ?_, ?_⟩
      · rw [hstep, ih1]
        have harith : p.counter + 1 + rest.length = p.counter + (wh :: rest).length := by
          simp [List.length_cons]
          omega
        rw [harith]
      · intro i hi
        rw [hstep]
        obtain ⟨hw2, hh2⟩ := ih2 i (by omega)
        rw [hw2, hh2, hwv, hhv, setIdx_other _ _ _ _ (by omega),
          setIdx_other _ _ _ _ (by omega)]
        exact ⟨rfl, rfl⟩
      · intro j hj
        rw [hstep]
        cases j with
        | zero =>
          obtain ⟨hw2, hh2⟩ := ih2 p.counter (by omega)
          rw [Nat.add_zero, hw2, hh2, hwv, hhv, setIdx_same, setIdx_same]
          exact ⟨rfl, rfl⟩
        | succ j2 =>
          have harith : p.counter + (j2 + 1) = p.counter + 1 + j2 := by omega
          rw [harith]
          have hj3 : p.counter + 1 + j2 < (publishList rest (publishStep p wh)).counter := by
            rw [hstep] at hj
            omega
          obtain ⟨hw2, hh2⟩ := ih3 j2 hj3
          rw [hw2, hh2]
          exact ⟨by rw [List.getD_cons_succ], by rw [List.getD_cons_succ]⟩
    · have hc2 : p.counter = 200 := by omega
      have hstep2 : publishStep p wh = p := by
        simp [publishStep, hc]
      have hstep : publishList (wh :: rest) p = publishList rest p := by
        show publishList rest (publishStep p wh) = publishList rest p
        rw [hstep2]
      obtain ⟨ih1, ih2, ih3⟩ := ih p hp
      refine ⟨?_, ?_, ?_⟩
      · rw [hstep, ih1, hc2, Nat.min_eq_right (by omega), Nat.min_eq_right (by omega)]
      · intro i hi
        rw [hstep]
        exact ih2 i hi
      · intro j hj
        exfalso
        rw [hstep, ih1, hc2, Nat.min_eq_right (by omega)] at hj
        omega

/-- Claim C8: the published supported-resolution block is bounded by
the fixed capacity 200 - its counter is the list length truncated at
200, never exceeding 200, and the slots below the counter hold the
pairs of the published list in order. -/
theorem c8_publish_capacity (l : List (Nat × Nat)) :
    (publish l).counter ≤ 200 ∧
    (publish l).counter = min l.length 200 ∧
    ∀ j, j < (publish l).counter →
      (publish l).w j = (l.getD j (0, 0)).1 ∧ (publish l).h j = (l.getD j (0, 0)).2 := by
  obtain ⟨h1, h2, h3⟩ := publishList_spec l
    { counter := 0, w := fun _ => 0, h := fun _ => 0 } (by decide)
  have hpub : publish l
      = publishList l { counter := 0, w := fun _ => 0, h := fun _ => 0 } := rfl
  rw [hpub]
  dsimp only at h1 h3
  simp only [Nat.zero_add] at h1 h3
  refine ⟨?_, h1, ?_⟩
  · rw [h1]
    exact Nat.min_le_right _ _
  · intro j hj
    exact h3 j hj

/-- Claim C9: device naming never fails and never reuses a live name -
the generated name is always outside the in-use registry, and across
any sequence of attach and disconnect calls a registry whose names are
pairwise distinct keeps them pairwise distinct. -/
theorem c9_names_never_reused :
    (∀ reg : List DeviceName, newDisplayName reg ∉ reg) ∧
    (∀ (ops : List VDOp) (s : VDState), s.displayList.Nodup →
      (runOps ops s).displayList.Nodup) :=
  ⟨newDisplayName_not_mem, runOps_reg_nodup⟩

/-- A concrete single-real-display state with nothing attached. -/
def sW : VDState :=
  { diplayInfoList :=
      [{ width := 1920, height := 1080, devicenaam := DeviceName.real "DISPLAY1",
         primary := true }],
    virtualDisplayList := [],
    displayList := [DeviceName.real "DISPLAY1"],
    restoreNeeded := false,
    savedConfig := [],
    primaryName := some (DeviceName.real "DISPLAY1") }

/-- A concrete one-entry resolution map. -/
def rmW : List ((Nat × Nat) × (Nat × Nat)) := [((1920, 1080), (1920, 1080))]

/-- Witness for C1 at a concrete attach-then-disconnect run. -/
theorem c1_witness :
    (DisplayMode.dmVirtual ≠ DisplayMode.dmDisplay ∧ sW.virtualDisplayList = [] ∧
      sW.restoreNeeded = false ∧
      (∀ e ∈ sW.diplayInfoList, e.devicenaam ∈ sW.displayList) ∧
      sW.diplayInfoList ≠ []) ∧
    ((disconnectDisplay 7 true
        ((attachDisplay DisplayMode.dmVirtual rmW false 7 true [true]
          sW).2.1)).diplayInfoList = sW.diplayInfoList ∧
     (disconnectDisplay 7 true
        ((attachDisplay DisplayMode.dmVirtual rmW false 7 true [true]
          sW).2.1)).diplayInfoList ≠ []) := by
  refine ⟨⟨by decide, rfl, rfl, by decide, by decide⟩, ?_⟩
  exact c1_attach_then_disconnect_restores DisplayMode.dmVirtual rmW false 7 true [true]
    sW (by decide) rfl rfl (by decide) (by decide)

/-- Witness for C2 at a concrete failing creation. -/
theorem c2_witness :
    ((∀ r ∈ sW.virtualDisplayList, r.devicenaam ∈ sW.displayList) ∧
     (∀ e ∈ sW.diplayInfoList, e.devicenaam ∈ sW.displayList) ∧
     (∀ r ∈ sW.virtualDisplayList, r.clientId ≠ 7) ∧
     (∃ i, i < (devicesNeeded DisplayMode.dmVirtual rmW).length ∧
       (([false] : List Bool).drop i).headD false = false)) ∧
    (attachDisplay DisplayMode.dmVirtual rmW false 7 true [false] sW).1 = false ∧
    (attachDisplay DisplayMode.dmVirtual rmW false 7 true [false] sW).2.1 = sW := by
  have hex : ∃ i, i < (devicesNeeded DisplayMode.dmVirtual rmW).length ∧
      (([false] : List Bool).drop i).headD false = false := ⟨0, by decide, by decide⟩
  have hc := c2_attach_failure_rolls_back DisplayMode.dmVirtual rmW false 7 [false] sW
    (by decide) (by decide) (by decide) (by decide) hex
  exact ⟨⟨by decide, by decide, by decide, hex⟩, hc.1, hc.2⟩

/-- Witness for C3 at a concrete successful virtual attach. -/
theorem c3_witness :
    ((∀ e ∈ sW.diplayInfoList, e.devicenaam ∈ sW.displayList) ∧
     (∀ p, sW.primaryName = some p → p ∈ sW.displayList) ∧
     (attachDisplay DisplayMode.dmVirtual rmW false 7 true [true] sW).1 = true) ∧
    (∃ r : VIRTUALDISPLAY,
      ownedBy 7 ((attachDisplay DisplayMode.dmVirtual rmW false 7 true [true]
          sW).2.1).virtualDisplayList = [r] ∧
      r.clientId = 7 ∧
      r.singleExtendMode = false ∧
      ((attachDisplay DisplayMode.dmVirtual rmW false 7 true [true]
          sW).2.1).primaryName ≠ some r.devicenaam ∧
      (∀ e ∈ ((attachDisplay DisplayMode.dmVirtual rmW false 7 true [true]
          sW).2.1).diplayInfoList,
        e.devicenaam = r.devicenaam → e.primary = false)) := by
  have hprimW : ∀ p, sW.primaryName = some p → p ∈ sW.displayList := by
    intro p hp
    have h2 : DeviceName.real "DISPLAY1" = p := Option.some.inj hp
    rw [← h2]
    decide
  refine ⟨⟨by decide, hprimW, by decide⟩, ?_⟩
  exact c3_virtual_one_record_never_primary rmW false 7 [true] sW (by decide) hprimW
    (by decide)

/-- Witness for C4 at a concrete successful attach. -/
theorem c4_witness :
    (DisplayMode.dmVirtual ≠ DisplayMode.dmDisplay ∧
     (attachDisplay DisplayMode.dmVirtual rmW false 7 true [true] sW).1 = true) ∧
    ((ownedBy 7 ((attachDisplay DisplayMode.dmVirtual rmW false 7 true [true]
          sW).2.1).virtualDisplayList).map (fun r => r.devicenaam)
        = (attachDisplay DisplayMode.dmVirtual rmW false 7 true [true] sW).2.2 ∧
     ((attachDisplay DisplayMode.dmVirtual rmW false 7 true [true] sW).2.2).length
        = (devicesNeeded DisplayMode.dmVirtual rmW).length ∧
     (∀ d, d ≠ 7 →
       ownedBy d ((attachDisplay DisplayMode.dmVirtual rmW false 7 true [true]
           sW).2.1).virtualDisplayList = ownedBy d sW.virtualDisplayList)) := by
  refine ⟨⟨by decide, by decide⟩, ?_⟩
  exact c4_latest_attach_owns_exact_set DisplayMode.dmVirtual rmW false 7 [true] sW
    (by decide) (by decide)

/-- Witness for the amended C5 at a concrete unknown client. -/
theorem c5_witness :
    (∀ r ∈ sC5.virtualDisplayList, r.clientId ≠ 99) ∧
    (detachClient 99 sC5 = sC5 ∧
     (disconnectDisplay 99 false sC5).virtualDisplayList = sC5.virtualDisplayList ∧
     (disconnectDisplay 99 false sC5).displayList = sC5.displayList ∧
     (disconnectDisplay 99 false sC5).primaryName = sC5.primaryName ∧
     (sC5.restoreNeeded = false → disconnectDisplay 99 false sC5 = sC5) ∧
     (false = false → sC5.virtualDisplayList ≠ [] →
       disconnectDisplay 99 false sC5 = sC5)) := by
  exact ⟨by decide, c5_unknown_disconnect_noop 99 false sC5 (by decide)⟩

/-- A concrete published resolution list. -/
def lW : List (Nat × Nat) := [(1920, 1080), (1280, 720)]

/-- Witness for C8 at a concrete two-entry list. -/
theorem c8_witness :
    0 < (publish lW).counter ∧
    (publish lW).counter = min lW.length 200 ∧
    (publish lW).w 0 = 1920 ∧ (publish lW).h 0 = 1080 := by
  have hc := c8_publish_capacity lW
  have h0 : 0 < (publish lW).counter := by decide
  obtain ⟨hw, hh⟩ := hc.2.2 0 h0
  refine ⟨h0, hc.2.1, ?_, ?_⟩
  · rw [hw]
    rfl
  · rw [hh]
    rfl

/-- Witness for C9: a concrete registry and a concrete two-call trace. -/
theorem c9_witness :
    newDisplayName [DeviceName.virt 0, DeviceName.real "DISPLAY1"]
      ∉ [DeviceName.virt 0, DeviceName.real "DISPLAY1"] ∧
    sW.displayList.Nodup ∧
    (runOps [VDOp.attach DisplayMode.dmVirtual rmW false 7 true [true],
             VDOp.disconnect 7 true] sW).displayList.Nodup := by
  exact ⟨c9_names_never_reused.1 _, by decide,
    c9_names_never_reused.2 _ sW (by decide)⟩

end VirtualDisplayModel
